import Mathlib

/-! Enigma landing page script: gallery scroll engine and language animator.

A shallow embedding of `src/script.js`.  JavaScript numbers are idealised as
rationals; the one place where the script can produce `NaN` (a division of
zero by zero) is modelled explicitly, and the binary64 evaluation of the
easing curve and of the scroll offset is modelled next to the exact one, with
every operation rounded by `round64`.  Module-level variables become fields of
explicit state records, and every function of the script becomes a function
from state to state.
-/

namespace Enigma

/-! ## Configuration constants -/

/-- Pixels from the section start at which the gallery starts pinning. -/
def GALLERY_PIN_OFFSET : ℚ := 100

/-- Horizontal scroll speed multiplier. -/
def GALLERY_SCROLL_SENSITIVITY : ℚ := 1

/-! ## Gallery scroll engine -/

/-- The inline `style.transform` of the gallery track.  The script only ever
writes `translateX(0px)` or `translateX(-${x}px)`; both are recorded as the
leftward shift in pixels.  `notANumber` is the string obtained when `x` is
`NaN`. -/
inductive Transform where
  | unset
  | translateLeft (px : ℚ)
  | notANumber
  deriving DecidableEq, Repr

/-- The gallery section: the layout values the script reads from it. -/
structure SectionElement where
  rectTop : ℚ
  offsetHeight : ℚ
  deriving DecidableEq, Repr

/-- The gallery container: its measured width and inline visibility. -/
structure ContainerElement where
  clientWidth : ℚ
  visibility : String
  deriving DecidableEq, Repr

/-- The gallery track: its measured content width and inline styles. -/
structure TrackElement where
  scrollWidth : ℚ
  transform : Transform
  willChange : String
  deriving DecidableEq, Repr

/-- The module-level `galleryState` object. -/
structure GalleryState where
  isActive : Bool
  isInitialized : Bool
  sectionElement : Option SectionElement
  containerElement : Option ContainerElement
  trackElement : Option TrackElement
  totalScrollDistance : ℚ
  startOffset : ℚ
  endOffset : ℚ
  trackWidth : ℚ
  containerWidth : ℚ
  deriving DecidableEq, Repr

/-- The easing function `easeInOutQuad(t)`, evaluated in exact arithmetic;
`easeInOutQuad64` below is its binary64 evaluation. -/
def easeInOutQuad (t : ℚ) : ℚ :=
  if t < 1 / 2 then 2 * t * t else -1 + (4 - 2 * t) * t

/-- The function `setupGalleryDimensions()`, given `window.pageYOffset` and
`window.innerHeight`. -/
def setupGalleryDimensions (g : GalleryState) (pageYOffset innerHeight : ℚ) : GalleryState :=
  match g.trackElement, g.containerElement, g.sectionElement with
  | some track, some container, some sect =>
    let trackWidth := track.scrollWidth
    let containerWidth := container.clientWidth
    let startOffset := pageYOffset + sect.rectTop - GALLERY_PIN_OFFSET
    { g with
      containerElement := some { container with visibility := "visible" }
      trackWidth := trackWidth
      containerWidth := containerWidth
      totalScrollDistance := max 0 (trackWidth - containerWidth)
      startOffset := startOffset
      endOffset := startOffset + sect.offsetHeight - innerHeight }
  | _, _, _ => g

/-- The value written to `style.transform` inside the zone.  The progress is
`NaN` exactly when the section scroll distance is zero (the numerator is then
zero as well), and `NaN` survives clamping, easing and the multiplication. -/
def insideTransform (g : GalleryState) (scrollTop : ℚ) : Transform :=
  let sectionScrollDistance := g.endOffset - g.startOffset
  if sectionScrollDistance = 0 then Transform.notANumber
  else
    let scrollProgress := (scrollTop - g.startOffset) / sectionScrollDistance
    let clampedProgress := max 0 (min 1 scrollProgress)
    let easedProgress := easeInOutQuad clampedProgress
    let horizontalOffset := easedProgress * g.totalScrollDistance * GALLERY_SCROLL_SENSITIVITY
    Transform.translateLeft horizontalOffset

/-- The function `updateGalleryPosition()`, given `window.pageYOffset`.  The result is
`none` when the script would dereference a missing track element. -/
def updateGalleryPosition (g : GalleryState) (scrollTop : ℚ) : Option GalleryState :=
  if !g.isInitialized || g.totalScrollDistance ≤ 0 then some g
  else if g.startOffset ≤ scrollTop ∧ scrollTop ≤ g.endOffset then
    match g.trackElement with
    | none => none
    | some track =>
      let track1 := if !g.isActive then { track with willChange := "transform" } else track
      some { g with
        isActive := true
        trackElement := some { track1 with transform := insideTransform g scrollTop } }
  else if g.isActive then
    match g.trackElement with
    | none => none
    | some track =>
      let track1 := { track with willChange := "auto" }
      let track2 :=
        if scrollTop < g.startOffset then
          { track1 with transform := Transform.translateLeft 0 }
        else
          { track1 with
            transform := Transform.translateLeft (g.totalScrollDistance * GALLERY_SCROLL_SENSITIVITY) }
      some { g with isActive := false, trackElement := some track2 }
  else some g

/-- The leftward translation of the track, when its transform is a number. -/
def leftOffset (g : GalleryState) : Option ℚ :=
  match g.trackElement with
  | some track =>
    match track.transform with
    | Transform.translateLeft px => some px
    | _ => none
  | none => none

/-- A gallery state with all three elements present, as `initEventGallery`
leaves it once the images have loaded. -/
def exampleGallery (active : Bool) (tr : Transform) : GalleryState :=
  { isActive := active
    isInitialized := true
    sectionElement := some { rectTop := 600, offsetHeight := 1900 }
    containerElement := some { clientWidth := 1200, visibility := "visible" }
    trackElement := some { scrollWidth := 2000, transform := tr, willChange := "auto" }
    totalScrollDistance := 800
    startOffset := 500
    endOffset := 1500
    trackWidth := 2000
    containerWidth := 1200 }

/-- A gallery whose track (900 px) fits inside its container (1200 px). -/
def narrowGallery : GalleryState :=
  { exampleGallery true (Transform.translateLeft 300) with
    trackElement := some { scrollWidth := 900, transform := Transform.translateLeft 300,
                           willChange := "transform" } }

/-- The leftward translation of the track after one position update. -/
def offsetAfter (g : GalleryState) (scrollTop : ℚ) : Option ℚ :=
  (updateGalleryPosition g scrollTop).bind leftOffset

/-- The `isActive` flag after one position update. -/
def activeAfter (g : GalleryState) (scrollTop : ℚ) : Option Bool :=
  (updateGalleryPosition g scrollTop).map GalleryState.isActive

/-! ## Language cycle animator -/

/-- How long each language stays on screen, in milliseconds. -/
def DISPLAY_DURATION : Nat := 1800

/-- The crossfade duration, in milliseconds. -/
def TRANSITION_DURATION : Nat := 180

/-- The inline transition written at the start of a crossfade: the template
string of `animateEnhancedLanguageChange` with `TRANSITION_DURATION` and
`TRANSITION_EASING` filled in. -/
def TRANSITION_STYLE : String :=
  "opacity 180ms cubic-bezier(0.2, 0.9, 0.2, 1), transform 180ms cubic-bezier(0.2, 0.9, 0.2, 1)"

/-- One entry of the language table. -/
structure Language where
  text : String
  lang : String
  label : String
  deriving DecidableEq, Repr

/-- The language table. -/
def LANGUAGES : List Language :=
  [ { text := "ENIGMA", lang := "en", label := "English" },
    { text := "एनिग्मा", lang := "hi", label := "Hindi" },
    { text := "ಎನಿಗ್ಮಾ", lang := "kn", label := "Kannada" },
    { text := "एनिग्मा", lang := "mr", label := "Marathi" },
    { text := "એનિગ્મા", lang := "gu", label := "Gujarati" },
    { text := "এনিগ্মা", lang := "bn", label := "Bengali" } ]

/-- The first entry, `LANGUAGES[0]`. -/
def firstLanguage : Language := LANGUAGES.get ⟨0, by decide⟩

/-- The `#hero-text` element: its text, the attributes the script sets, the
two fade classes of its class list and its inline transition. -/
structure HeroElement where
  textContent : String
  lang : Option String
  ariaLabel : Option String
  ariaLive : Option String
  ariaAtomic : Option String
  fadeOut : Bool
  fadeIn : Bool
  transition : String
  deriving DecidableEq, Repr

/-- The three callbacks the animator hands to `setInterval` and
`setTimeout`: the interval callback of `startEnhancedLanguageCycle`, the outer
timeout of `animateEnhancedLanguageChange` (which captured `languageIndex`)
and its inner timeout. -/
inductive TimerCallback where
  | languageTick
  | swapText (languageIndex : Nat)
  | cleanUp
  deriving DecidableEq, Repr

/-- An armed browser timer: its handle, the time it is due, its period when
it was created by `setInterval`, and its callback. -/
structure Timer where
  id : Nat
  due : Nat
  period : Option Nat
  callback : TimerCallback
  deriving DecidableEq, Repr

/-- The animator's module-level variables together with the part of the
browser they talk to: the hero element (absent when `getElementById` finds
nothing), the reduced-motion media query, `document.hidden`, the clock in
milliseconds and the armed timers. -/
structure Page where
  currentLanguageIndex : Nat
  animationInterval : Option Nat
  prefersReducedMotion : Bool
  isTransitioning : Bool
  heroText : Option HeroElement
  mediaMatches : Bool
  hidden : Bool
  now : Nat
  nextTimerId : Nat
  timers : List Timer
  deriving DecidableEq, Repr

/-- The browser's `setTimeout(callback, delay)`. -/
def setTimeout (s : Page) (callback : TimerCallback) (delay : Nat) : Page :=
  { s with
    nextTimerId := s.nextTimerId + 1
    timers := s.timers ++
      [{ id := s.nextTimerId, due := s.now + delay, period := none, callback := callback }] }

/-- The browser's `setInterval(callback, delay)`; the handle returned is the old
`nextTimerId`. -/
def setInterval (s : Page) (callback : TimerCallback) (delay : Nat) : Page :=
  { s with
    nextTimerId := s.nextTimerId + 1
    timers := s.timers ++
      [{ id := s.nextTimerId, due := s.now + delay, period := some delay, callback := callback }] }

/-- The browser's `clearInterval(id)`. -/
def clearInterval (s : Page) (id : Nat) : Page :=
  { s with timers := s.timers.filter (fun t => t.id != id) }

/-- The function `updateLanguageText(element, languageIndex)`; `none` is the `TypeError`
raised when `LANGUAGES[languageIndex]` is undefined. -/
def updateLanguageText (element : HeroElement) (languageIndex : Nat) : Option HeroElement :=
  match LANGUAGES.get? languageIndex with
  | none => none
  | some language =>
    some { element with
      textContent := language.text
      lang := some language.lang
      ariaLabel := some (language.label ++ ": " ++ language.text) }

/-- The function `animateEnhancedLanguageChange(element, languageIndex)`.  The `element`
argument is always the hero text node, so it is read from the page. -/
def animateEnhancedLanguageChange (s : Page) (languageIndex : Nat) : Page :=
  if s.isTransitioning then s
  else
    match s.heroText with
    | none => s
    | some element =>
      let element1 := { element with transition := TRANSITION_STYLE, fadeOut := true }
      setTimeout { s with isTransitioning := true, heroText := some element1 }
        (TimerCallback.swapText languageIndex) (TRANSITION_DURATION / 2)

/-- The outer timeout of `animateEnhancedLanguageChange`.  A `TypeError` from
`updateLanguageText` ends the callback before it changes anything. -/
def swapTextCallback (s : Page) (languageIndex : Nat) : Page :=
  match s.heroText with
  | none => s
  | some element =>
    match updateLanguageText element languageIndex with
    | none => s
    | some element1 =>
      let element2 := { element1 with fadeOut := false, fadeIn := true }
      setTimeout { s with heroText := some element2 } TimerCallback.cleanUp TRANSITION_DURATION

/-- The inner timeout of `animateEnhancedLanguageChange`. -/
def cleanUpCallback (s : Page) : Page :=
  { s with
    heroText := s.heroText.map (fun element => { element with fadeIn := false })
    isTransitioning := false }

/-- The interval callback of `startEnhancedLanguageCycle`. -/
def languageTick (s : Page) : Page :=
  if s.isTransitioning then s
  else
    let s1 := { s with currentLanguageIndex := (s.currentLanguageIndex + 1) % LANGUAGES.length }
    animateEnhancedLanguageChange s1 s1.currentLanguageIndex

/-- The function `startEnhancedLanguageCycle(element)`.  A `TypeError` from
`updateLanguageText` ends the function before the interval is created. -/
def startEnhancedLanguageCycle (s : Page) : Page :=
  match s.heroText with
  | none => s
  | some element =>
    match updateLanguageText element s.currentLanguageIndex with
    | none => s
    | some element1 =>
      let s1 := setInterval { s with heroText := some element1 }
        TimerCallback.languageTick DISPLAY_DURATION
      { s1 with animationInterval := some s.nextTimerId }

/-- The function `initEnhancedMultilingualAnimation()`. -/
def initEnhancedMultilingualAnimation (s : Page) : Page :=
  let s1 := { s with prefersReducedMotion := s.mediaMatches }
  match s1.heroText with
  | none => s1
  | some element =>
    let element1 := { element with
      ariaLive := some "polite"
      ariaAtomic := some "true"
      ariaLabel := some "Company name in multiple languages" }
    if s1.prefersReducedMotion then
      { s1 with heroText := some { element1 with
          textContent := firstLanguage.text
          lang := some firstLanguage.lang } }
    else startEnhancedLanguageCycle { s1 with heroText := some element1 }

/-- The function `stopMultilingualAnimation()`.  A handle is truthy when it is not `null`
and not `0`. -/
def stopMultilingualAnimation (s : Page) : Page :=
  match s.animationInterval with
  | none => s
  | some id =>
    if id = 0 then s
    else { clearInterval s id with animationInterval := none, isTransitioning := false }

/-- The media-query listener installed by `handleMotionPreferenceChange`,
called with `e.matches`. -/
def motionPreferenceListener (s : Page) (eMatches : Bool) : Page :=
  let s1 := { s with prefersReducedMotion := eMatches }
  match s1.heroText with
  | none => s1
  | some _ =>
    if s1.prefersReducedMotion then
      let s2 := stopMultilingualAnimation s1
      { s2 with heroText := s2.heroText.map (fun element =>
          { element with
            textContent := firstLanguage.text
            lang := some firstLanguage.lang
            fadeOut := false
            fadeIn := false
            transition := "" }) }
    else initEnhancedMultilingualAnimation s1

/-- The `visibilitychange` listener. -/
def visibilityChangeListener (s : Page) : Page :=
  if s.hidden then stopMultilingualAnimation s
  else if !s.prefersReducedMotion then initEnhancedMultilingualAnimation s
  else s

/-- Run a timer callback. -/
def runCallback (s : Page) : TimerCallback → Page
  | TimerCallback.languageTick => languageTick s
  | TimerCallback.swapText languageIndex => swapTextCallback s languageIndex
  | TimerCallback.cleanUp => cleanUpCallback s

/-- The browser fires an armed timer: a timeout is removed from the armed
timers, an interval is re-armed one period later, and the callback runs. -/
def fireTimer (s : Page) (t : Timer) : Page :=
  match t.period with
  | none => runCallback { s with timers := s.timers.filter (fun u => u.id != t.id) } t.callback
  | some p =>
    runCallback
      { s with timers := s.timers.map (fun u => if u.id = t.id then { u with due := u.due + p } else u) }
      t.callback

/-- Fire, in the order they were armed, the timers that are due at the
current millisecond and are still armed when their turn comes. -/
def runDue (s : Page) : Page :=
  (s.timers.filter (fun t => t.due = s.now)).foldl
    (fun acc t => if acc.timers.any (fun u => u.id = t.id) then fireTimer acc t else acc) s

/-- The clock advances by one millisecond. -/
def tickClock (s : Page) : Page :=
  runDue { s with now := s.now + 1 }

/-- The clock advances by `ms` milliseconds. -/
def elapse : Nat → Page → Page
  | 0, s => s
  | ms + 1, s => elapse ms (tickClock s)

/-- What can happen to a loaded page: time passes, the reduced-motion
preference changes, or the page is hidden or shown. -/
inductive Event where
  | elapse (ms : Nat)
  | motionChange (reduce : Bool)
  | visibilityChange (hidden : Bool)
  deriving DecidableEq, Repr

/-- The effect of one event: the browser updates what it reports and calls
the listener the script registered for it. -/
def step (s : Page) : Event → Page
  | Event.elapse ms => elapse ms s
  | Event.motionChange reduce => motionPreferenceListener { s with mediaMatches := reduce } reduce
  | Event.visibilityChange hidden => visibilityChangeListener { s with hidden := hidden }

/-- The effect of a sequence of events. -/
def run (s : Page) (events : List Event) : Page :=
  events.foldl step s

/-- The hero element as the document delivers it. -/
def heroMarkup : HeroElement :=
  { textContent := "ENIGMA", lang := none, ariaLabel := none, ariaLive := none,
    ariaAtomic := none, fadeOut := false, fadeIn := false, transition := "" }

/-- The page when the script has been evaluated and before `init` runs: the
module-level variables have their initial values and no timer is armed. -/
def freshPage (reduce hidden : Bool) : Page :=
  { currentLanguageIndex := 0
    animationInterval := none
    prefersReducedMotion := false
    isTransitioning := false
    heroText := some heroMarkup
    mediaMatches := reduce
    hidden := hidden
    now := 0
    nextTimerId := 1
    timers := [] }

/-- The page after `init`, as far as the animator is concerned:
`initEnhancedMultilingualAnimation()` has run and the media-query listener
is installed. -/
def loadedPage (reduce hidden : Bool) : Page :=
  initEnhancedMultilingualAnimation (freshPage reduce hidden)

/-- The text on screen. -/
def displayedText (s : Page) : Option String :=
  s.heroText.map HeroElement.textContent

/-- The armed interval timers. -/
def armedIntervals (s : Page) : List Timer :=
  s.timers.filter (fun t => t.period.isSome)

/-- The pending timeouts. -/
def pendingTimeouts (s : Page) : List Timer :=
  s.timers.filter (fun t => t.period.isNone)

/-- Whether one of the two fade classes is on the hero element. -/
def hasFadeClass (s : Page) : Bool :=
  match s.heroText with
  | some element => element.fadeOut || element.fadeIn
  | none => false

/-- No armed timer is due within the next `ms` milliseconds, and every armed
timer carries a handle that has already been handed out. -/
def QuietFor (s : Page) (ms : Nat) : Prop :=
  (∀ t ∈ s.timers, s.now + ms < t.due) ∧ (∀ t ∈ s.timers, t.id < s.nextTimerId)

/-- The hero element half-way through a crossfade to `language`: the new
text is in place and the fade-in class is on. -/
def fadingIn (element : HeroElement) (language : Language) : HeroElement :=
  { element with
    textContent := language.text
    lang := some language.lang
    ariaLabel := some (language.label ++ ": " ++ language.text)
    transition := TRANSITION_STYLE
    fadeOut := false
    fadeIn := true }

/-- The animator is cycling and at rest: no crossfade is in progress, the
current index is a position of the table, the hero element exists, and the
only armed timer is the interval held in `animationInterval`, due `wait`
milliseconds from now. -/
def Cycling (s : Page) (wait : Nat) : Prop :=
  s.isTransitioning = false ∧
  s.currentLanguageIndex < LANGUAGES.length ∧
  s.heroText.isSome = true ∧
  ∃ id, id < s.nextTimerId ∧ s.animationInterval = some id ∧
    s.timers = [{ id := id, due := s.now + wait, period := some DISPLAY_DURATION,
                  callback := TimerCallback.languageTick }]

/-- The loaded page (motion not reduced, visible) 270 ms after `init`: the
first entry is on screen and the interval is due in 1530 ms. -/
def restingPage : Page :=
  { loadedPage false false with now := 270 }

/-- The first tick starts a crossfade at 1800 ms; 50 ms into it the
preference changes to reduced motion. -/
def reduceMidCrossfade : List Event :=
  [Event.elapse 1800, Event.elapse 50, Event.motionChange true]

/-- The same, followed by the 40 ms that remain until the crossfade's first
timeout is due. -/
def reduceThenSwap : List Event :=
  [Event.elapse 1800, Event.elapse 50, Event.motionChange true, Event.elapse 40]

/-- The same, followed by 220 ms, by which time both timeouts of the
crossfade have fired. -/
def reduceThenSettle : List Event :=
  [Event.elapse 1800, Event.elapse 50, Event.motionChange true, Event.elapse 220]

/-- The page is hidden, and while it is hidden the preference changes to
reduced motion and back. -/
def toggleWhileHidden : List Event :=
  [Event.visibilityChange true, Event.motionChange true, Event.motionChange false]

/-- The same, followed by one display period spent hidden. -/
def toggleWhileHiddenThenWait : List Event :=
  [Event.visibilityChange true, Event.motionChange true, Event.motionChange false,
   Event.elapse 1800]

/-- The same, followed by the page becoming visible again. -/
def toggleWhileHiddenThenShow : List Event :=
  [Event.visibilityChange true, Event.motionChange true, Event.motionChange false,
   Event.elapse 1800, Event.visibilityChange false]

/-! ## Gallery keyboard navigation -/

/-- What a `keydown` listener did with the event: whether it called
`preventDefault()`, and which image, if any, it focused. -/
structure KeyOutcome where
  defaultPrevented : Bool
  focused : Option Nat
  deriving DecidableEq, Repr

/-- The `keydown` listener that `setupGalleryKeyboardNavigation` attaches to
the image at position `index` of a list of `length` images, called with
`e.key`. -/
def galleryKeydown (length index : Nat) (key : String) : KeyOutcome :=
  if key = "ArrowLeft" ∨ key = "ArrowRight" then
    let nextIndex :=
      if key = "ArrowLeft" then (if index > 0 then index - 1 else length - 1)
      else (if index < length - 1 then index + 1 else 0)
    { defaultPrevented := true, focused := some nextIndex }
  else { defaultPrevented := false, focused := none }

/-! ## Debounced resize handling -/

/-- The closure returned by `debounce(func, wait)`: the time at which the
timer held in `timeout` is due, when one is armed, and the times at which
`func` has run so far. -/
structure Debounced where
  wait : Nat
  timeout : Option Nat
  calls : List Nat
  deriving DecidableEq, Repr

/-- The call `debounce(func, wait)`. -/
def debounce (wait : Nat) : Debounced :=
  { wait := wait, timeout := none, calls := [] }

/-- The armed timer fires: `later` runs `func` (its `clearTimeout` finds
nothing left to clear). -/
def Debounced.fire (d : Debounced) : Debounced :=
  match d.timeout with
  | none => d
  | some due => { d with timeout := none, calls := d.calls ++ [due] }

/-- Time moves on to `now`: a timer that is due by then fires. -/
def Debounced.advance (d : Debounced) (now : Nat) : Debounced :=
  match d.timeout with
  | none => d
  | some due => if due ≤ now then d.fire else d

/-- The closure `executedFunction` is called at time `now`: `clearTimeout(timeout)`, then
`timeout = setTimeout(later, wait)`. -/
def Debounced.invoke (d : Debounced) (now : Nat) : Debounced :=
  { d with timeout := some (now + d.wait) }

/-- An event arrives at time `now`. -/
def Debounced.event (d : Debounced) (now : Nat) : Debounced :=
  (d.advance now).invoke now

/-- A sequence of events, given by their times. -/
def Debounced.burst (d : Debounced) (times : List Nat) : Debounced :=
  times.foldl Debounced.event d

/-- No further event arrives: the armed timer fires when it is due. -/
def Debounced.settle (d : Debounced) : Debounced :=
  d.fire

/-- The `resize` listeners the script installs through `debounce`, in the
order they are registered: the one at the end of the script, the one of
`setupMobileMenu`, and the one of `setupGalleryScrollListener`. -/
inductive ResizeListener where
  | windowResize
  | mobileMenuResize
  | galleryResize
  deriving DecidableEq, Repr

/-- Whether the listener's callback calls `setupGalleryDimensions()` when
`galleryState.isInitialized` is set. -/
def ResizeListener.recomputes : ResizeListener → Bool
  | ResizeListener.windowResize => true
  | ResizeListener.mobileMenuResize => false
  | ResizeListener.galleryResize => true

/-- The debounced `resize` listeners of a page whose gallery is initialized. -/
def resizeListeners : List ResizeListener :=
  [ResizeListener.windowResize, ResizeListener.mobileMenuResize, ResizeListener.galleryResize]

/-- The runs of `setupGalleryDimensions` caused by resize events at the given
times, up to the moment the last event is handled: which listener ran it,
and when.  Every listener is debounced by 250 ms. -/
def geometryRunsDuring (g : GalleryState) (times : List Nat) : List (ResizeListener × Nat) :=
  resizeListeners.flatMap (fun l =>
    if l.recomputes && g.isInitialized then
      ((debounce 250).burst times).calls.map (fun t => (l, t))
    else [])

/-- The runs of `setupGalleryDimensions` caused by resize events at the given
times once every armed timer has fired. -/
def geometryRuns (g : GalleryState) (times : List Nat) : List (ResizeListener × Nat) :=
  resizeListeners.flatMap (fun l =>
    if l.recomputes && g.isInitialized then
      ((debounce 250).burst times).settle.calls.map (fun t => (l, t))
    else [])

/-- Each event follows the previous one by less than `wait` milliseconds. -/
def CloselySpaced (wait : Nat) (times : List Nat) : Prop :=
  List.Chain' (fun a b => a ≤ b ∧ b < a + wait) times

/-- The inline transform of the track after one position update. -/
def transformAfter (g : GalleryState) (scrollTop : ℚ) : Option Transform :=
  (updateGalleryPosition g scrollTop).bind
    (fun g1 => g1.trackElement.map TrackElement.transform)

/-- A gallery whose elements have been found but whose dimensions have not
been measured yet, with a section exactly as tall as a 900 px viewport. -/
def viewportHighGallery : GalleryState :=
  { isActive := false
    isInitialized := true
    sectionElement := some { rectTop := 600, offsetHeight := 900 }
    containerElement := some { clientWidth := 1200, visibility := "" }
    trackElement := some { scrollWidth := 2000, transform := Transform.unset, willChange := "" }
    totalScrollDistance := 0
    startOffset := 0
    endOffset := 0
    trackWidth := 0
    containerWidth := 0 }

/-- The page is hidden, the preference is toggled while it is hidden, one
display period passes, the page is shown and hidden again. -/
def leakThenHide : List Event :=
  [Event.visibilityChange true, Event.motionChange true, Event.motionChange false,
   Event.elapse 1800, Event.visibilityChange false, Event.visibilityChange true]

/-- The same, followed by one more display period spent hidden. -/
def leakThenHideThenWait : List Event :=
  [Event.visibilityChange true, Event.motionChange true, Event.motionChange false,
   Event.elapse 1800, Event.visibilityChange false, Event.visibilityChange true,
   Event.elapse 1800]

/-! ## Binary64 evaluation of the scroll arithmetic -/

/-- Rounding of an exact result to the nearest binary64 number, ties to the
even significand: the significand has 53 bits and the exponent is at least
-1022 (below that the spacing stays that of the subnormal numbers).  Overflow
to `Infinity` is not modelled; the arithmetic of the gallery stays far below
it. -/
def round64 (x : ℚ) : ℚ :=
  if x = 0 then 0
  else
    let e : ℤ := max (Int.log 2 |x|) (-1022)
    let ulp : ℚ := 2 ^ (e - 52)
    let q : ℚ := |x| / ulp
    let m : ℤ := ⌊q⌋
    let r : ℚ := q - m
    let n : ℤ :=
      if r < 1 / 2 then m else if 1 / 2 < r then m + 1 else if m % 2 = 0 then m else m + 1
    (if x < 0 then -1 else 1) * n * ulp

/-- The easing function `easeInOutQuad(t)` as JavaScript evaluates it on a
binary64 argument: every multiplication, subtraction and addition is rounded. -/
def easeInOutQuad64 (t : ℚ) : ℚ :=
  if t < 1 / 2 then round64 (round64 (2 * t) * t)
  else round64 (-1 + round64 (round64 (4 - round64 (2 * t)) * t))

/-- The value written to `style.transform` inside the zone as JavaScript
evaluates it on binary64 numbers (the fields of `g` and `scrollTop` are
binary64 numbers); compare `insideTransform`. -/
def insideTransform64 (g : GalleryState) (scrollTop : ℚ) : Transform :=
  let sectionScrollDistance := round64 (g.endOffset - g.startOffset)
  if sectionScrollDistance = 0 then Transform.notANumber
  else
    let scrollProgress := round64 (round64 (scrollTop - g.startOffset) / sectionScrollDistance)
    let clampedProgress := max 0 (min 1 scrollProgress)
    let easedProgress := easeInOutQuad64 clampedProgress
    let horizontalOffset :=
      round64 (round64 (easedProgress * g.totalScrollDistance) * GALLERY_SCROLL_SENSITIVITY)
    Transform.translateLeft horizontalOffset

/-! ## Theorems: gallery scroll engine -/

theorem easeInOutQuad_zero : easeInOutQuad 0 = 0 := by
  norm_num [easeInOutQuad]

theorem easeInOutQuad_half : easeInOutQuad (1 / 2) = 1 / 2 := by
  norm_num [easeInOutQuad]

theorem easeInOutQuad_one : easeInOutQuad 1 = 1 := by
  norm_num [easeInOutQuad]

/-- Inside the zone, with a non-degenerate range, the raw progress already
lies in the unit interval, so clamping leaves it alone. -/
theorem clamp_progress_inside (a b x : ℚ) (hab : a < b) (hlo : a ≤ x) (hhi : x ≤ b) :
    max 0 (min 1 ((x - a) / (b - a))) = (x - a) / (b - a) := by
  have hpos : 0 < b - a := by linarith
  have h0 : 0 ≤ (x - a) / (b - a) := div_nonneg (by linarith) hpos.le
  have h1 : (x - a) / (b - a) ≤ 1 := by
    rw [div_le_one hpos]; linarith
  rw [min_eq_right h1, max_eq_right h0]

/-- C1: for an initialized gallery with a positive scroll distance and
`startOffset < endOffset`, a position update at a `scrollTop` inside the
range marks the engine active and shifts the track left by
`easeInOutQuad((scrollTop - startOffset) / (endOffset - startOffset)) *
totalScrollDistance * GALLERY_SCROLL_SENSITIVITY`. -/
theorem updateGalleryPosition_inside (g : GalleryState) (track : TrackElement) (scrollTop : ℚ)
    (hinit : g.isInitialized = true) (htrack : g.trackElement = some track)
    (htotal : 0 < g.totalScrollDistance) (hlt : g.startOffset < g.endOffset)
    (hlo : g.startOffset ≤ scrollTop) (hhi : scrollTop ≤ g.endOffset) :
    activeAfter g scrollTop = some true ∧
    offsetAfter g scrollTop =
      some (easeInOutQuad ((scrollTop - g.startOffset) / (g.endOffset - g.startOffset))
        * g.totalScrollDistance * GALLERY_SCROLL_SENSITIVITY) := by
  have hne : g.endOffset - g.startOffset ≠ 0 := by
    intro h; linarith
  have hclamp := clamp_progress_inside g.startOffset g.endOffset scrollTop hlt hlo hhi
  have hguard : ¬ g.totalScrollDistance ≤ 0 := not_le.mpr htotal
  constructor
  · simp [activeAfter, updateGalleryPosition, hinit, hguard, hlo, hhi, htrack]
  · simp [offsetAfter, updateGalleryPosition, hinit, hguard, hlo, hhi, htrack, leftOffset,
      insideTransform, hne, hclamp]

/-- C1, worked example: with `startOffset = 500`, `endOffset = 1500`,
`totalScrollDistance = 800` the offset is 0, 400 and 800 at `scrollTop`
500, 1000 and 1500, whether or not the engine was active before. -/
theorem updateGalleryPosition_inside_witness :
    offsetAfter (exampleGallery false Transform.unset) 500 = some 0 ∧
    offsetAfter (exampleGallery true (Transform.translateLeft 0)) 1000 = some 400 ∧
    offsetAfter (exampleGallery true (Transform.translateLeft 400)) 1500 = some 800 ∧
    activeAfter (exampleGallery false Transform.unset) 500 = some true := by
  refine ⟨?_, ?_, ?_, ?_⟩
  · rw [(updateGalleryPosition_inside (exampleGallery false Transform.unset) _ 500 rfl rfl
      (by norm_num [exampleGallery]) (by norm_num [exampleGallery])
      (by norm_num [exampleGallery]) (by norm_num [exampleGallery])).2]
    norm_num [exampleGallery, easeInOutQuad, GALLERY_SCROLL_SENSITIVITY]
  · rw [(updateGalleryPosition_inside (exampleGallery true (Transform.translateLeft 0)) _ 1000
      rfl rfl (by norm_num [exampleGallery]) (by norm_num [exampleGallery])
      (by norm_num [exampleGallery]) (by norm_num [exampleGallery])).2]
    norm_num [exampleGallery, easeInOutQuad, GALLERY_SCROLL_SENSITIVITY]
  · rw [(updateGalleryPosition_inside (exampleGallery true (Transform.translateLeft 400)) _ 1500
      rfl rfl (by norm_num [exampleGallery]) (by norm_num [exampleGallery])
      (by norm_num [exampleGallery]) (by norm_num [exampleGallery])).2]
    norm_num [exampleGallery, easeInOutQuad, GALLERY_SCROLL_SENSITIVITY]
  · exact (updateGalleryPosition_inside (exampleGallery false Transform.unset) _ 500 rfl rfl
      (by norm_num [exampleGallery]) (by norm_num [exampleGallery])
      (by norm_num [exampleGallery]) (by norm_num [exampleGallery])).1

/-- C2, as stated, fails: an engine that is not active when the sample
arrives keeps whatever transform it had.  After a jump from above the zone
(offset 0, inactive) to `scrollTop = 1600` the offset is still 0, not 800;
and after a jump from below the zone (offset 800, inactive) to
`scrollTop = 400` the offset is still 800, not 0.  The same `scrollTop` and
geometry give different offsets for different previous states. -/
theorem updateGalleryPosition_outside_counterexample :
    offsetAfter (exampleGallery false (Transform.translateLeft 0)) 1600 = some 0 ∧
    offsetAfter (exampleGallery false (Transform.translateLeft 0)) 1600
      ≠ some (800 * GALLERY_SCROLL_SENSITIVITY) ∧
    offsetAfter (exampleGallery false (Transform.translateLeft 800)) 400 = some 800 ∧
    offsetAfter (exampleGallery false Transform.unset) 1600 = none ∧
    offsetAfter (exampleGallery true (Transform.translateLeft 0)) 1600
      ≠ offsetAfter (exampleGallery false (Transform.translateLeft 0)) 1600 := by
  refine ⟨?_, ?_, ?_, ?_, ?_⟩ <;>
    norm_num [offsetAfter, updateGalleryPosition, exampleGallery, leftOffset,
      GALLERY_SCROLL_SENSITIVITY]

/-- C2, amended: for an initialized gallery with a positive scroll distance
and a `scrollTop` outside the range, an engine that was active becomes
inactive and its track is put at the endpoint of that side (0 before the
range, `totalScrollDistance * GALLERY_SCROLL_SENSITIVITY` after it); an
engine that was not active is left exactly as it was. -/
theorem updateGalleryPosition_outside (g : GalleryState) (track : TrackElement) (scrollTop : ℚ)
    (hinit : g.isInitialized = true) (htrack : g.trackElement = some track)
    (htotal : 0 < g.totalScrollDistance)
    (hout : scrollTop < g.startOffset ∨ g.endOffset < scrollTop) :
    (g.isActive = true →
      activeAfter g scrollTop = some false ∧
      (scrollTop < g.startOffset → offsetAfter g scrollTop = some 0) ∧
      (¬ scrollTop < g.startOffset →
        offsetAfter g scrollTop
          = some (g.totalScrollDistance * GALLERY_SCROLL_SENSITIVITY))) ∧
    (g.isActive = false → updateGalleryPosition g scrollTop = some g) := by
  have hguard : ¬ g.totalScrollDistance ≤ 0 := not_le.mpr htotal
  have hzone : ¬ (g.startOffset ≤ scrollTop ∧ scrollTop ≤ g.endOffset) := by
    rintro ⟨h1, h2⟩
    rcases hout with h | h
    · exact absurd h1 (not_le.mpr h)
    · exact absurd h2 (not_le.mpr h)
  refine ⟨fun hact => ⟨?_, ?_, ?_⟩, fun hact => ?_⟩
  · simp [activeAfter, updateGalleryPosition, hinit, hguard, hzone, hact, htrack]
  · intro hlt
    simp [offsetAfter, updateGalleryPosition, hinit, hguard, hzone, hact, htrack, hlt,
      leftOffset]
  · intro hlt
    simp [offsetAfter, updateGalleryPosition, hinit, hguard, hzone, hact, htrack, hlt,
      leftOffset]
  · simp [updateGalleryPosition, hinit, hguard, hzone, hact]

/-- C2, amended, worked example: leaving the range `[500, 1500]` while active
gives offset 0 at `scrollTop = 400` and offset 800 at `scrollTop = 1600`. -/
theorem updateGalleryPosition_outside_witness :
    offsetAfter (exampleGallery true (Transform.translateLeft 20)) 400 = some 0 ∧
    offsetAfter (exampleGallery true (Transform.translateLeft 20)) 1600
      = some (800 * GALLERY_SCROLL_SENSITIVITY) := by
  have hlo := updateGalleryPosition_outside (exampleGallery true (Transform.translateLeft 20))
    _ 400 rfl rfl (by norm_num [exampleGallery]) (Or.inl (by norm_num [exampleGallery]))
  have hhi := updateGalleryPosition_outside (exampleGallery true (Transform.translateLeft 20))
    _ 1600 rfl rfl (by norm_num [exampleGallery]) (Or.inr (by norm_num [exampleGallery]))
  exact ⟨(hlo.1 rfl).2.1 (by norm_num [exampleGallery]),
    (hhi.1 rfl).2.2 (by norm_num [exampleGallery])⟩

/-- C5: with all three elements present, `setupGalleryDimensions` stores
`totalScrollDistance = max(0, trackWidth - containerWidth)`; when the track is
no wider than the container this is 0, and then `updateGalleryPosition`
returns the state unchanged for every `scrollTop`. -/
theorem setupGalleryDimensions_degenerate (g : GalleryState) (track : TrackElement)
    (container : ContainerElement) (sect : SectionElement) (pageYOffset innerHeight : ℚ)
    (htrack : g.trackElement = some track) (hcontainer : g.containerElement = some container)
    (hsection : g.sectionElement = some sect) :
    (setupGalleryDimensions g pageYOffset innerHeight).trackWidth = track.scrollWidth ∧
    (setupGalleryDimensions g pageYOffset innerHeight).containerWidth = container.clientWidth ∧
    (setupGalleryDimensions g pageYOffset innerHeight).totalScrollDistance
      = max 0 (track.scrollWidth - container.clientWidth) ∧
    (track.scrollWidth ≤ container.clientWidth →
      (setupGalleryDimensions g pageYOffset innerHeight).totalScrollDistance = 0 ∧
      ∀ scrollTop : ℚ,
        updateGalleryPosition (setupGalleryDimensions g pageYOffset innerHeight) scrollTop
          = some (setupGalleryDimensions g pageYOffset innerHeight)) := by
  have htotal : (setupGalleryDimensions g pageYOffset innerHeight).totalScrollDistance
      = max 0 (track.scrollWidth - container.clientWidth) := by
    simp [setupGalleryDimensions, htrack, hcontainer, hsection]
  refine ⟨?_, ?_, htotal, fun hle => ?_⟩
  · simp [setupGalleryDimensions, htrack, hcontainer, hsection]
  · simp [setupGalleryDimensions, htrack, hcontainer, hsection]
  · have hzero : (setupGalleryDimensions g pageYOffset innerHeight).totalScrollDistance = 0 := by
      rw [htotal]; exact max_eq_left (by linarith)
    refine ⟨hzero, fun scrollTop => ?_⟩
    simp [updateGalleryPosition, hzero]

/-- C5, worked example: a 900 px track in a 1200 px container gets scroll
distance 0, and a later position update at `scrollTop = 1000` changes
nothing. -/
theorem setupGalleryDimensions_degenerate_witness :
    (setupGalleryDimensions narrowGallery 0 900).totalScrollDistance = 0 ∧
    updateGalleryPosition (setupGalleryDimensions narrowGallery 0 900) 1000
      = some (setupGalleryDimensions narrowGallery 0 900) := by
  have h := (setupGalleryDimensions_degenerate narrowGallery _ _ _ 0 900 rfl rfl rfl).2.2.2
    (by norm_num)
  exact ⟨h.1, h.2 1000⟩


/-! ## Theorems: the clock -/

theorem elapse_add (a b : Nat) (s : Page) : elapse (a + b) s = elapse b (elapse a s) := by
  induction a generalizing s with
  | zero => simp [elapse]
  | succ a ih =>
    have h : a + 1 + b = (a + b) + 1 := by omega
    rw [h]
    simp only [elapse]
    exact ih _

theorem runDue_idle (s : Page) (h : ∀ t ∈ s.timers, s.now < t.due) : runDue s = s := by
  have hnil : s.timers.filter (fun t => t.due = s.now) = [] := by
    rw [List.filter_eq_nil_iff]
    intro t ht
    have := h t ht
    simp
    omega
  simp [runDue, hnil]

theorem elapse_idle (n : Nat) (s : Page) (h : ∀ t ∈ s.timers, s.now + n < t.due) :
    elapse n s = { s with now := s.now + n } := by
  induction n generalizing s with
  | zero => simp [elapse]
  | succ n ih =>
    have h1 : tickClock s = { s with now := s.now + 1 } := by
      unfold tickClock
      apply runDue_idle
      intro t ht
      have := h t ht
      simp at ht ⊢
      omega
    simp only [elapse]
    rw [h1, ih]
    · simp; omega
    · intro t ht
      have := h t ht
      simp at ht ⊢
      omega

theorem runDue_single (s : Page) (t : Timer) (hmem : t ∈ s.timers)
    (hdue : s.timers.filter (fun u => u.due = s.now) = [t]) : runDue s = fireTimer s t := by
  have hany : s.timers.any (fun u => u.id = t.id) = true := by
    rw [List.any_eq_true]
    exact ⟨t, hmem, by simp⟩
  unfold runDue
  rw [hdue]
  simp only [List.foldl_cons, List.foldl_nil]
  rw [if_pos hany]

theorem elapse_succ (n : Nat) (s : Page) : elapse (n + 1) s = tickClock (elapse n s) := by
  rw [elapse_add]
  simp [elapse]

theorem elapse_to_timeout (s : Page) (rest : List Timer) (t : Timer) (n : Nat)
    (htimers : s.timers = rest ++ [t]) (hdue : t.due = s.now + n + 1) (hper : t.period = none)
    (hrest : ∀ u ∈ rest, s.now + n + 1 < u.due) (hid : ∀ u ∈ rest, u.id ≠ t.id) :
    elapse (n + 1) s
      = runCallback { s with now := s.now + n + 1, timers := rest } t.callback := by
  have hidle : elapse n s = { s with now := s.now + n } := by
    apply elapse_idle
    intro u hu
    rw [htimers, List.mem_append, List.mem_singleton] at hu
    rcases hu with hu | hu
    · have := hrest u hu; omega
    · subst hu; omega
  rw [elapse_succ, hidle]
  unfold tickClock
  have hfilter : (rest ++ [t]).filter (fun u => u.due = s.now + n + 1) = [t] := by
    rw [List.filter_append]
    have h1 : rest.filter (fun u => u.due = s.now + n + 1) = [] := by
      rw [List.filter_eq_nil_iff]
      intro u hu
      have := hrest u hu
      simp
      omega
    rw [h1]
    simp [hdue]
  have hkeep : (rest ++ [t]).filter (fun u => u.id != t.id) = rest := by
    rw [List.filter_append]
    have h1 : rest.filter (fun u => u.id != t.id) = rest := by
      rw [List.filter_eq_self]
      intro u hu
      simpa using hid u hu
    rw [h1]
    simp
  rw [runDue_single _ t (by simp [htimers]) (by simpa [htimers] using hfilter)]
  simp [fireTimer, hper, htimers, hkeep]


/-! ## Theorems: language cycle animator -/

theorem animate_eq (s : Page) (element : HeroElement) (languageIndex : Nat)
    (hidle : s.isTransitioning = false) (hhero : s.heroText = some element) :
    animateEnhancedLanguageChange s languageIndex =
      { s with
        isTransitioning := true
        heroText := some { element with transition := TRANSITION_STYLE, fadeOut := true }
        nextTimerId := s.nextTimerId + 1
        timers := s.timers ++ [{ id := s.nextTimerId, due := s.now + 90, period := none,
                                 callback := TimerCallback.swapText languageIndex }] } := by
  simp [animateEnhancedLanguageChange, hidle, hhero, setTimeout, TRANSITION_DURATION]

/-- The first half of a crossfade: nothing but the clock moves for 89 ms, and
at 90 ms the text is swapped and the second timeout is armed. -/
theorem crossfade_first_half (s : Page) (element : HeroElement) (language : Language)
    (languageIndex : Nat) (hidle : s.isTransitioning = false) (hhero : s.heroText = some element)
    (hlang : LANGUAGES.get? languageIndex = some language) (hquiet : QuietFor s 270) :
    (∀ n, n < 90 → elapse n (animateEnhancedLanguageChange s languageIndex)
      = { animateEnhancedLanguageChange s languageIndex with now := s.now + n }) ∧
    elapse 90 (animateEnhancedLanguageChange s languageIndex) =
      { s with
        now := s.now + 90
        isTransitioning := true
        heroText := some (fadingIn element language)
        nextTimerId := s.nextTimerId + 2
        timers := s.timers ++ [{ id := s.nextTimerId + 1, due := s.now + 270, period := none,
                                 callback := TimerCallback.cleanUp }] } := by
  rw [animate_eq s element languageIndex hidle hhero]
  constructor
  · intro n hn
    rw [elapse_idle]
    intro t ht
    simp only [List.mem_append, List.mem_singleton] at ht
    rcases ht with ht | ht
    · have := hquiet.1 t ht; simp; omega
    · subst ht; simp; omega
  · rw [elapse_to_timeout _ s.timers _ 89 rfl (by simp) rfl
      (fun u hu => by have := hquiet.1 u hu; simp; omega)
      (fun u hu => by have := hquiet.2 u hu; simp; omega)]
    have hlang1 : LANGUAGES[languageIndex]? = some language := by simpa using hlang
    simp [runCallback, swapTextCallback, updateLanguageText, hlang1, setTimeout, fadingIn,
      TRANSITION_DURATION, Nat.add_assoc]

/-- The second half of a crossfade: nothing but the clock moves until 269 ms,
and at 270 ms the fade-in class and the flag are cleared. -/
theorem crossfade_second_half (s : Page) (element : HeroElement) (language : Language)
    (languageIndex : Nat) (hidle : s.isTransitioning = false) (hhero : s.heroText = some element)
    (hlang : LANGUAGES.get? languageIndex = some language) (hquiet : QuietFor s 270) :
    (∀ n, n < 180 → elapse (90 + n) (animateEnhancedLanguageChange s languageIndex) =
      { s with
        now := s.now + 90 + n
        isTransitioning := true
        heroText := some (fadingIn element language)
        nextTimerId := s.nextTimerId + 2
        timers := s.timers ++ [{ id := s.nextTimerId + 1, due := s.now + 270, period := none,
                                 callback := TimerCallback.cleanUp }] }) ∧
    elapse 270 (animateEnhancedLanguageChange s languageIndex) =
      { s with
        now := s.now + 270
        isTransitioning := false
        heroText := some { fadingIn element language with fadeIn := false }
        nextTimerId := s.nextTimerId + 2 } := by
  have h90 := (crossfade_first_half s element language languageIndex hidle hhero hlang hquiet).2
  constructor
  · intro n hn
    rw [elapse_add, h90, elapse_idle]
    intro t ht
    simp only [List.mem_append, List.mem_singleton] at ht
    rcases ht with ht | ht
    · have := hquiet.1 t ht; simp; omega
    · subst ht; simp; omega
  · have h : (270 : Nat) = 90 + (179 + 1) := by norm_num
    rw [h, elapse_add, h90]
    rw [elapse_to_timeout _ s.timers _ 179 rfl (by simp) rfl
      (fun u hu => by have := hquiet.1 u hu; simp; omega)
      (fun u hu => by have := hquiet.2 u hu; simp; omega)]
    simp [runCallback, cleanUpCallback]


theorem elapse_jump (n : Nat) (s : Page) (h : ∀ t ∈ s.timers, s.now + n < t.due) :
    elapse (n + 1) s = runDue { s with now := s.now + n + 1 } := by
  rw [elapse_succ, elapse_idle n s h]
  rfl

theorem languages_get (i : Nat) (h : i < LANGUAGES.length) :
    ∃ language, LANGUAGES.get? i = some language := by
  exact ⟨LANGUAGES.get ⟨i, h⟩, List.get?_eq_get h⟩

/-- One period of a cycling animator: the interval fires once, the crossfade
it starts settles, and the animator is at rest again one entry further. -/
theorem cycling_period (s : Page) (w : Nat) (hc : Cycling s w) (hw0 : 0 < w)
    (hw : w + 270 ≤ 1800) :
    Cycling (elapse 1800 s) w ∧
    (elapse 1800 s).currentLanguageIndex = (s.currentLanguageIndex + 1) % LANGUAGES.length ∧
    displayedText (elapse 1800 s)
      = (LANGUAGES.get? ((s.currentLanguageIndex + 1) % LANGUAGES.length)).map Language.text := by
  obtain ⟨hidle, hidx, hhero, id, hid, hhandle, htimers⟩ := hc
  obtain ⟨element, hel⟩ := Option.isSome_iff_exists.mp hhero
  obtain ⟨v, rfl⟩ : ∃ v, w = v + 1 := ⟨w - 1, by omega⟩
  obtain ⟨r, hr⟩ : ∃ r, 1800 = (v + 1) + (270 + r) := ⟨1800 - (v + 1) - 270, by omega⟩
  have hlen : LANGUAGES.length = 6 := rfl
  have hnext : (s.currentLanguageIndex + 1) % LANGUAGES.length < LANGUAGES.length :=
    Nat.mod_lt _ (by decide)
  obtain ⟨language, hlang⟩ := languages_get _ hnext
  -- the interval fires
  have hfire : elapse (v + 1) s = animateEnhancedLanguageChange
      { s with
        now := s.now + v + 1
        currentLanguageIndex := (s.currentLanguageIndex + 1) % LANGUAGES.length
        timers := [{ id := id, due := s.now + (v + 1) + 1800, period := some DISPLAY_DURATION,
                     callback := TimerCallback.languageTick }] }
      ((s.currentLanguageIndex + 1) % LANGUAGES.length) := by
    rw [elapse_jump v s (by intro t ht; rw [htimers] at ht; simp at ht; subst ht; simp)]
    rw [runDue_single _ (Timer.mk id (s.now + (v + 1)) (some DISPLAY_DURATION)
        TimerCallback.languageTick) (by simp [htimers]) (by simp [htimers, Nat.add_assoc])]
    simp [fireTimer, runCallback, languageTick, hidle, htimers, DISPLAY_DURATION, Nat.add_assoc]
  have hquiet : QuietFor { s with
        now := s.now + v + 1
        currentLanguageIndex := (s.currentLanguageIndex + 1) % LANGUAGES.length
        timers := [{ id := id, due := s.now + (v + 1) + 1800, period := some DISPLAY_DURATION,
                     callback := TimerCallback.languageTick }] } 270 := by
    constructor
    · intro t ht; simp at ht; subst ht; simp; omega
    · intro t ht; simp at ht; subst ht; simpa using hid
  have hsettle := (crossfade_second_half _ element language _ (by simpa using hidle)
    (by simpa using hel) hlang hquiet).2
  rw [hr, elapse_add, hfire, elapse_add, hsettle, elapse_idle r _
    (by intro t ht; simp at ht; subst ht; simp; omega)]
  refine ⟨⟨rfl, hnext, rfl, id, ?_, ?_, ?_⟩, rfl, ?_⟩
  · simp; omega
  · simpa using hhandle
  · simp [DISPLAY_DURATION]; omega
  · have hlang1 : LANGUAGES[(s.currentLanguageIndex + 1) % LANGUAGES.length]? = some language := by
      simpa using hlang
    simp [displayedText, hlang1, fadingIn]


/-! ### Only the interval tick writes `currentLanguageIndex` -/

theorem animate_index (s : Page) (i : Nat) :
    (animateEnhancedLanguageChange s i).currentLanguageIndex = s.currentLanguageIndex := by
  unfold animateEnhancedLanguageChange
  split
  · rfl
  · split <;> rfl

theorem swapText_index (s : Page) (i : Nat) :
    (swapTextCallback s i).currentLanguageIndex = s.currentLanguageIndex := by
  unfold swapTextCallback
  split
  · rfl
  · split <;> rfl

theorem start_index (s : Page) :
    (startEnhancedLanguageCycle s).currentLanguageIndex = s.currentLanguageIndex := by
  unfold startEnhancedLanguageCycle
  split
  · rfl
  · split <;> rfl

theorem init_index (s : Page) :
    (initEnhancedMultilingualAnimation s).currentLanguageIndex = s.currentLanguageIndex := by
  unfold initEnhancedMultilingualAnimation
  simp only
  split
  · rfl
  · split
    · rfl
    · rw [start_index]

theorem stop_index (s : Page) :
    (stopMultilingualAnimation s).currentLanguageIndex = s.currentLanguageIndex := by
  unfold stopMultilingualAnimation
  split
  · rfl
  · split <;> rfl

theorem motion_index (s : Page) (m : Bool) :
    (motionPreferenceListener s m).currentLanguageIndex = s.currentLanguageIndex := by
  unfold motionPreferenceListener
  simp only
  split
  · rfl
  · split
    · simp [stop_index]
    · rw [init_index]

theorem visibility_index (s : Page) :
    (visibilityChangeListener s).currentLanguageIndex = s.currentLanguageIndex := by
  unfold visibilityChangeListener
  split
  · exact stop_index s
  · split
    · exact init_index s
    · rfl

/-- A tick that finds no transition in progress moves the index one place
forward, wrapping at the end of the table; a tick that finds one leaves the
page alone. -/
theorem languageTick_index (s : Page) :
    (languageTick s).currentLanguageIndex
      = if s.isTransitioning then s.currentLanguageIndex
        else (s.currentLanguageIndex + 1) % LANGUAGES.length := by
  unfold languageTick
  split
  · rfl
  · rw [animate_index]

theorem languageTick_valid (s : Page) (h : s.currentLanguageIndex < LANGUAGES.length) :
    (languageTick s).currentLanguageIndex < LANGUAGES.length := by
  rw [languageTick_index]
  split
  · exact h
  · exact Nat.mod_lt _ (by decide)

theorem runCallback_valid (s : Page) (c : TimerCallback)
    (h : s.currentLanguageIndex < LANGUAGES.length) :
    (runCallback s c).currentLanguageIndex < LANGUAGES.length := by
  cases c with
  | languageTick => exact languageTick_valid s h
  | swapText i => simpa [runCallback, swapText_index] using h
  | cleanUp => simpa [runCallback, cleanUpCallback] using h

theorem fireTimer_valid (s : Page) (t : Timer) (h : s.currentLanguageIndex < LANGUAGES.length) :
    (fireTimer s t).currentLanguageIndex < LANGUAGES.length := by
  unfold fireTimer
  split <;> exact runCallback_valid _ _ h

theorem runDue_valid (s : Page) (h : s.currentLanguageIndex < LANGUAGES.length) :
    (runDue s).currentLanguageIndex < LANGUAGES.length := by
  unfold runDue
  generalize s.timers.filter (fun t => t.due = s.now) = due
  induction due generalizing s with
  | nil => exact h
  | cons t rest ih =>
    simp only [List.foldl_cons]
    apply ih
    split
    · exact fireTimer_valid s t h
    · exact h

theorem elapse_valid (n : Nat) (s : Page) (h : s.currentLanguageIndex < LANGUAGES.length) :
    (elapse n s).currentLanguageIndex < LANGUAGES.length := by
  induction n generalizing s with
  | zero => exact h
  | succ n ih => exact ih _ (runDue_valid _ h)

theorem step_valid (s : Page) (e : Event) (h : s.currentLanguageIndex < LANGUAGES.length) :
    (step s e).currentLanguageIndex < LANGUAGES.length := by
  cases e with
  | elapse ms => exact elapse_valid ms s h
  | motionChange reduce => simpa [step, motion_index] using h
  | visibilityChange hidden => simpa [step, visibility_index] using h

theorem run_valid (events : List Event) (s : Page)
    (h : s.currentLanguageIndex < LANGUAGES.length) :
    (run s events).currentLanguageIndex < LANGUAGES.length := by
  induction events generalizing s with
  | nil => exact h
  | cons e rest ih => exact ih _ (step_valid s e h)

theorem loadedPage_valid (reduce hidden : Bool) :
    (loadedPage reduce hidden).currentLanguageIndex < LANGUAGES.length := by
  unfold loadedPage
  rw [init_index]
  show 0 < LANGUAGES.length
  decide

theorem cycling_periods (s : Page) (w k : Nat) (hc : Cycling s w) (hw0 : 0 < w)
    (hw : w + 270 ≤ 1800) :
    Cycling (elapse (1800 * k) s) w ∧
    (elapse (1800 * k) s).currentLanguageIndex
      = (s.currentLanguageIndex + k) % LANGUAGES.length ∧
    (0 < k → displayedText (elapse (1800 * k) s)
      = (LANGUAGES.get? ((s.currentLanguageIndex + k) % LANGUAGES.length)).map Language.text) := by
  induction k with
  | zero =>
    refine ⟨by simpa [elapse] using hc, ?_, fun h => absurd h (by decide)⟩
    simp only [Nat.mul_zero, elapse, Nat.add_zero]
    exact (Nat.mod_eq_of_lt hc.2.1).symm
  | succ k ih =>
    obtain ⟨hck, hidx, _⟩ := ih
    have hstep := cycling_period (elapse (1800 * k) s) w hck hw0 hw
    have hsplit : 1800 * (k + 1) = 1800 * k + 1800 := by ring
    rw [hsplit, elapse_add]
    have hmod : ((s.currentLanguageIndex + k) % LANGUAGES.length + 1) % LANGUAGES.length
        = (s.currentLanguageIndex + (k + 1)) % LANGUAGES.length := by
      rw [Nat.add_mod, Nat.mod_mod, ← Nat.add_mod, Nat.add_assoc]
    refine ⟨hstep.1, ?_, fun _ => ?_⟩
    · rw [hstep.2.1, hidx, hmod]
    · rw [hstep.2.2, hidx, hmod]


/-- C3: an interval tick that finds `isTransitioning` false moves
`currentLanguageIndex` to `(i + 1) mod 6`; a cycling animator whose interval
fires with room for the crossfade to settle before the period ends is, after
`k` periods (`k` ticks, each finding `isTransitioning` false), at rest again
with index `(i + k) mod 6`, a valid position of the table, and with that
entry on screen; and in every state reachable from the loaded page the index
is a valid position of the table. -/
theorem languageCycle_wraps (s : Page) (w k : Nat) (hc : Cycling s w) (hw0 : 0 < w)
    (hw : w + (TRANSITION_DURATION / 2 + TRANSITION_DURATION) ≤ DISPLAY_DURATION) :
    (∀ p : Page, p.isTransitioning = false →
      (languageTick p).currentLanguageIndex = (p.currentLanguageIndex + 1) % LANGUAGES.length) ∧
    Cycling (elapse (DISPLAY_DURATION * k) s) w ∧
    (elapse (DISPLAY_DURATION * k) s).currentLanguageIndex
      = (s.currentLanguageIndex + k) % LANGUAGES.length ∧
    (elapse (DISPLAY_DURATION * k) s).currentLanguageIndex < LANGUAGES.length ∧
    (0 < k → displayedText (elapse (DISPLAY_DURATION * k) s)
      = (LANGUAGES.get? ((s.currentLanguageIndex + k) % LANGUAGES.length)).map Language.text) ∧
    (∀ (reduce hidden : Bool) (events : List Event),
      (run (loadedPage reduce hidden) events).currentLanguageIndex < LANGUAGES.length) := by
  have h := cycling_periods s w k hc hw0 (by simpa [TRANSITION_DURATION, DISPLAY_DURATION] using hw)
  refine ⟨fun p hp => ?_, h.1, h.2.1, h.1.2.1, h.2.2, fun reduce hidden events => ?_⟩
  · rw [languageTick_index, hp]; rfl
  · exact run_valid events _ (loadedPage_valid reduce hidden)

/-- C3, worked example: six periods after the first entry was at rest on
screen, the index is 0 again and `ENIGMA` is displayed. -/
theorem languageCycle_wraps_witness :
    (elapse (DISPLAY_DURATION * 6) restingPage).currentLanguageIndex = 0 ∧
    displayedText (elapse (DISPLAY_DURATION * 6) restingPage) = some "ENIGMA" := by
  have hc : Cycling restingPage 1530 := ⟨rfl, by decide, rfl, 1, by decide, rfl, rfl⟩
  have h := languageCycle_wraps restingPage 1530 6 hc (by decide) (by decide)
  exact ⟨h.2.2.1, h.2.2.2.2.1 (by decide)⟩


/-- The resting page is the loaded page 270 ms later. -/
theorem restingPage_reachable : elapse 270 (loadedPage false false) = restingPage := by
  rw [elapse_idle 270 _ (by intro t ht; simp [loadedPage, freshPage,
    initEnhancedMultilingualAnimation, startEnhancedLanguageCycle, setInterval, heroMarkup,
    updateLanguageText, LANGUAGES] at ht; subst ht; decide)]
  rfl

theorem restingPage_quiet : QuietFor restingPage 270 := by
  constructor <;> intro t ht <;> simp [restingPage, loadedPage, freshPage,
    initEnhancedMultilingualAnimation, startEnhancedLanguageCycle, setInterval, heroMarkup,
    updateLanguageText, LANGUAGES] at ht <;> subst ht <;> decide

/-- C9, as stated, fails: 180 ms after a crossfade starts the fade-in class
is still on the element and `isTransitioning` is still true; they stay so
through millisecond 269 and are cleared at millisecond 270. -/
theorem crossfade_unsettled_at_180 :
    (elapse TRANSITION_DURATION (animateEnhancedLanguageChange restingPage 1)).isTransitioning
      = true ∧
    hasFadeClass (elapse TRANSITION_DURATION (animateEnhancedLanguageChange restingPage 1))
      = true ∧
    (elapse 269 (animateEnhancedLanguageChange restingPage 1)).isTransitioning = true ∧
    (elapse 270 (animateEnhancedLanguageChange restingPage 1)).isTransitioning = false := by
  have h := crossfade_second_half restingPage _ _ 1 rfl rfl rfl restingPage_quiet
  have h180 := h.1 90 (by decide)
  have h269 := h.1 179 (by decide)
  refine ⟨?_, ?_, ?_, ?_⟩
  · show (elapse (90 + 90) _).isTransitioning = true
    rw [h180]
  · show hasFadeClass (elapse (90 + 90) _) = true
    rw [h180]; rfl
  · show (elapse (90 + 179) _).isTransitioning = true
    rw [h269]
  · rw [h.2]

/-- C9, amended: a crossfade started at time `t` on an animator that is not
transitioning, with no other timer due during the next 270 ms, keeps the old
text until `t + 90`; at `t + TRANSITION_DURATION / 2 = t + 90` the text, the
`lang` attribute and the label are those of the new entry, the fade-out class
is off and the fade-in class is on; this lasts, with `isTransitioning` true,
until `t + 269`; at `t + TRANSITION_DURATION / 2 + TRANSITION_DURATION =
t + 270` the fade-in class and `isTransitioning` are cleared.  The time from
tick to settled is 270 ms. -/
theorem crossfade_timeline (s : Page) (element : HeroElement) (language : Language)
    (languageIndex : Nat) (hidle : s.isTransitioning = false) (hhero : s.heroText = some element)
    (hlang : LANGUAGES.get? languageIndex = some language)
    (hquiet : QuietFor s (TRANSITION_DURATION / 2 + TRANSITION_DURATION)) :
    (∀ n, n < TRANSITION_DURATION / 2 →
      displayedText (elapse n (animateEnhancedLanguageChange s languageIndex))
        = some element.textContent ∧
      (elapse n (animateEnhancedLanguageChange s languageIndex)).isTransitioning = true) ∧
    (∀ n, TRANSITION_DURATION / 2 ≤ n → n < TRANSITION_DURATION / 2 + TRANSITION_DURATION →
      (elapse n (animateEnhancedLanguageChange s languageIndex)).heroText
        = some (fadingIn element language) ∧
      (elapse n (animateEnhancedLanguageChange s languageIndex)).isTransitioning = true) ∧
    (elapse (TRANSITION_DURATION / 2 + TRANSITION_DURATION)
        (animateEnhancedLanguageChange s languageIndex)).heroText
      = some { fadingIn element language with fadeIn := false } ∧
    (elapse (TRANSITION_DURATION / 2 + TRANSITION_DURATION)
        (animateEnhancedLanguageChange s languageIndex)).isTransitioning = false ∧
    (elapse (TRANSITION_DURATION / 2 + TRANSITION_DURATION)
        (animateEnhancedLanguageChange s languageIndex)).now = s.now + 270 := by
  have hq : QuietFor s 270 := hquiet
  have h1 := crossfade_first_half s element language languageIndex hidle hhero hlang hq
  have h2 := crossfade_second_half s element language languageIndex hidle hhero hlang hq
  have h270 : TRANSITION_DURATION / 2 + TRANSITION_DURATION = 270 := rfl
  have h90 : TRANSITION_DURATION / 2 = 90 := rfl
  rw [h270, h90]
  refine ⟨fun n hn => ?_, fun n hlo hhi => ?_, ?_, ?_, ?_⟩
  · rw [h1.1 n hn, animate_eq s element languageIndex hidle hhero]
    exact ⟨rfl, rfl⟩
  · obtain ⟨m, rfl⟩ : ∃ m, n = 90 + m := ⟨n - 90, by omega⟩
    rw [h2.1 m (by omega)]
    exact ⟨rfl, rfl⟩
  · rw [h2.2]
  · rw [h2.2]
  · rw [h2.2]

/-- C9, amended, worked example: a crossfade to entry 1 started on the resting
page shows the Hindi text from 90 ms on and has settled after 270 ms. -/
theorem crossfade_timeline_witness :
    displayedText (elapse 90 (animateEnhancedLanguageChange restingPage 1)) = some "एनिग्मा" ∧
    (elapse 270 (animateEnhancedLanguageChange restingPage 1)).isTransitioning = false ∧
    hasFadeClass (elapse 270 (animateEnhancedLanguageChange restingPage 1)) = false := by
  have h := crossfade_timeline restingPage _ _ 1 rfl rfl rfl restingPage_quiet
  refine ⟨?_, h.2.2.2.1, ?_⟩
  · have h90 := (h.2.1 90 (by decide) (by decide)).1
    simp only [displayedText, h90]
    rfl
  · have h270 := h.2.2.1
    have e : TRANSITION_DURATION / 2 + TRANSITION_DURATION = 270 := rfl
    rw [e] at h270
    simp only [hasFadeClass, h270]
    rfl

theorem pendingTimeouts_rearm (timers : List Timer) (id p : Nat)
    (h : ∀ u ∈ timers, u.id = id → u.period.isSome = true) :
    (timers.map (fun u => if u.id = id then { u with due := u.due + p } else u)).filter
      (fun t => t.period.isNone) = timers.filter (fun t => t.period.isNone) := by
  induction timers with
  | nil => rfl
  | cons u rest ih =>
    have hrest := ih (fun v hv => h v (List.mem_cons_of_mem u hv))
    by_cases hu : u.id = id
    · have hsome := h u (List.mem_cons_self u rest) hu
      have hnone : u.period.isNone = false := by
        cases hper : u.period with
        | none => simp [hper] at hsome
        | some q => rfl
      simp only [List.map_cons, if_pos hu, List.filter_cons, hnone, hrest]
      simp
    · simp only [List.map_cons, if_neg hu, List.filter_cons, hrest]

/-- C10: while `isTransitioning` is true, the interval callback and a direct
call of `animateEnhancedLanguageChange` return the page unchanged (index,
element, timers and all); and when the browser fires an armed interval in
such a state, the index, the element, the flag and the pending timeouts are
unchanged and no timer is added, so nothing is left to replay the tick. -/
theorem tick_dropped_while_transitioning (s : Page) (h : s.isTransitioning = true) :
    languageTick s = s ∧
    (∀ i, animateEnhancedLanguageChange s i = s) ∧
    (∀ (t : Timer) (p : Nat), t.callback = TimerCallback.languageTick → t.period = some p →
      (∀ u ∈ s.timers, u.id = t.id → u.period.isSome = true) →
      (fireTimer s t).currentLanguageIndex = s.currentLanguageIndex ∧
      (fireTimer s t).heroText = s.heroText ∧
      (fireTimer s t).isTransitioning = true ∧
      pendingTimeouts (fireTimer s t) = pendingTimeouts s ∧
      (fireTimer s t).timers.length = s.timers.length ∧
      (fireTimer s t).nextTimerId = s.nextTimerId) := by
  refine ⟨by simp [languageTick, h], fun i => by simp [animateEnhancedLanguageChange, h], ?_⟩
  intro t p hcb hper hids
  have hfire : fireTimer s t = { s with
      timers := s.timers.map (fun u => if u.id = t.id then { u with due := u.due + p } else u) } := by
    simp [fireTimer, hper, hcb, runCallback, languageTick, h]
  rw [hfire]
  exact ⟨rfl, rfl, h, pendingTimeouts_rearm s.timers t.id p hids, by simp, rfl⟩

/-- C10, worked example: a tick that arrives just after a crossfade to entry 1
has started on the resting page changes nothing. -/
theorem tick_dropped_while_transitioning_witness :
    languageTick (animateEnhancedLanguageChange restingPage 1)
      = animateEnhancedLanguageChange restingPage 1 :=
  (tick_dropped_while_transitioning (animateEnhancedLanguageChange restingPage 1) rfl).1


/-! ### Evaluating traces -/

theorem elapse_idle_of_all (n : Nat) (s : Page)
    (h : s.timers.all (fun t => s.now + n < t.due) = true) :
    elapse n s = { s with now := s.now + n } := by
  apply elapse_idle
  intro t ht
  have := List.all_eq_true.mp h t ht
  simpa using this

theorem elapse_jump_of_all (n : Nat) (s : Page)
    (h : s.timers.all (fun t => s.now + n < t.due) = true) :
    elapse (n + 1) s = runDue { s with now := s.now + n + 1 } := by
  apply elapse_jump
  intro t ht
  have := List.all_eq_true.mp h t ht
  simpa using this

theorem run_nil (s : Page) : run s [] = s := rfl

theorem run_cons (s : Page) (e : Event) (es : List Event) :
    run s (e :: es) = run (step s e) es := rfl

theorem step_elapse (s : Page) (ms : Nat) : step s (Event.elapse ms) = elapse ms s := rfl

/-- C4, failing input: motion is not reduced at load, the first tick starts a
crossfade at 1800 ms, and 50 ms later the preference changes to reduced.
Right after the change the element shows `ENIGMA` without fade class and no
timer of the interval is armed; but the crossfade's timeout is still pending
and fires 40 ms later: with reduced motion active the element then shows the
Hindi entry and carries the fade-in class, and once the crossfade has settled
it keeps showing the Hindi entry. -/
theorem reducedMotion_overwritten_by_pending_swap :
    (run (loadedPage false false) reduceMidCrossfade).prefersReducedMotion = true ∧
    displayedText (run (loadedPage false false) reduceMidCrossfade) = some firstLanguage.text ∧
    hasFadeClass (run (loadedPage false false) reduceMidCrossfade) = false ∧
    armedIntervals (run (loadedPage false false) reduceMidCrossfade) = [] ∧
    (pendingTimeouts (run (loadedPage false false) reduceMidCrossfade)).length = 1 ∧
    (run (loadedPage false false) reduceThenSwap).prefersReducedMotion = true ∧
    displayedText (run (loadedPage false false) reduceThenSwap) = some "एनिग्मा" ∧
    displayedText (run (loadedPage false false) reduceThenSwap) ≠ some firstLanguage.text ∧
    hasFadeClass (run (loadedPage false false) reduceThenSwap) = true ∧
    (run (loadedPage false false) reduceThenSettle).prefersReducedMotion = true ∧
    displayedText (run (loadedPage false false) reduceThenSettle) = some "एनिग्मा" ∧
    (run (loadedPage false false) reduceThenSettle).timers = [] := by
  have hmid : run (loadedPage false false) reduceMidCrossfade
      = step { runDue { loadedPage false false with now := 1800 } with now := 1850 }
          (Event.motionChange true) := by
    rw [reduceMidCrossfade, run_cons, run_cons, run_cons, run_nil, step_elapse, step_elapse,
      show (1800 : Nat) = 1799 + 1 from rfl, elapse_jump_of_all 1799, elapse_idle_of_all 50]
    all_goals rfl
  have hswap : run (loadedPage false false) reduceThenSwap
      = elapse 40 (run (loadedPage false false) reduceMidCrossfade) := by
    rw [reduceThenSwap, reduceMidCrossfade, run_cons, run_cons, run_cons, run_cons, run_cons,
      run_cons, run_cons, run_nil, run_nil, step_elapse, step_elapse, step_elapse]
  have hsettle : run (loadedPage false false) reduceThenSettle
      = elapse 220 (run (loadedPage false false) reduceMidCrossfade) := by
    rw [reduceThenSettle, reduceMidCrossfade, run_cons, run_cons, run_cons, run_cons, run_cons,
      run_cons, run_cons, run_nil, run_nil, step_elapse, step_elapse, step_elapse]
  have h40 : elapse 40 (run (loadedPage false false) reduceMidCrossfade)
      = runDue { run (loadedPage false false) reduceMidCrossfade with now := 1890 } := by
    rw [show (40 : Nat) = 39 + 1 from rfl, elapse_jump_of_all 39, hmid]
    · rfl
    · rw [hmid]; rfl
  have h220 : elapse 220 (run (loadedPage false false) reduceMidCrossfade)
      = runDue { runDue { run (loadedPage false false) reduceMidCrossfade with now := 1890 }
          with now := 2070 } := by
    rw [show (220 : Nat) = 40 + (179 + 1) from rfl, elapse_add, h40, elapse_jump_of_all 179, hmid]
    · rfl
    · rw [hmid]; rfl
  rw [hswap, hsettle, h40, h220, hmid]
  refine ⟨rfl, rfl, rfl, rfl, rfl, rfl, rfl, ?_, rfl, rfl, rfl, rfl⟩
  decide


/-- C8, failing input: the loaded page (index 0, one interval armed) is
hidden, which disarms the interval; while it is hidden the preference changes
to reduced motion and back, and the second change starts the cycle again: an
interval is armed although the page is hidden.  One display period later the
index has moved from 0 to 1 with the page still hidden, and when the page is
shown (reduced motion inactive) a second interval is armed next to the
first. -/
theorem hidden_page_cycles_after_motion_toggle :
    (loadedPage false false).currentLanguageIndex = 0 ∧
    (armedIntervals (loadedPage false false)).length = 1 ∧
    (run (loadedPage false false) toggleWhileHidden).hidden = true ∧
    (armedIntervals (run (loadedPage false false) toggleWhileHidden)).length = 1 ∧
    (run (loadedPage false false) toggleWhileHiddenThenWait).hidden = true ∧
    (run (loadedPage false false) toggleWhileHiddenThenWait).currentLanguageIndex = 1 ∧
    (run (loadedPage false false) toggleWhileHiddenThenShow).hidden = false ∧
    (run (loadedPage false false) toggleWhileHiddenThenShow).prefersReducedMotion = false ∧
    (armedIntervals (run (loadedPage false false) toggleWhileHiddenThenShow)).length = 2 := by
  have hwait : run (loadedPage false false) toggleWhileHiddenThenWait
      = runDue { run (loadedPage false false) toggleWhileHidden with now := 1800 } := by
    rw [toggleWhileHiddenThenWait, run_cons, run_cons, run_cons, run_cons, run_nil, step_elapse,
      show (1800 : Nat) = 1799 + 1 from rfl, elapse_jump_of_all 1799]
    all_goals rfl
  have hshow : run (loadedPage false false) toggleWhileHiddenThenShow
      = step (run (loadedPage false false) toggleWhileHiddenThenWait)
          (Event.visibilityChange false) := by
    rw [toggleWhileHiddenThenShow, toggleWhileHiddenThenWait, run_cons, run_cons, run_cons,
      run_cons, run_cons, run_cons, run_cons, run_cons, run_cons, run_nil, run_nil]
  rw [hshow, hwait]
  exact ⟨rfl, rfl, rfl, rfl, rfl, rfl, rfl, rfl, rfl⟩


/-! ## Theorems: keyboard navigation and resize handling -/

/-- C6: in a gallery of `n ≥ 1` images, on the image at position `i < n`,
ArrowRight focuses position `(i + 1) mod n` and ArrowLeft focuses position
`(i + n - 1) mod n`, both valid positions, and both prevent the default
action; every other key focuses nothing and prevents nothing. -/
theorem galleryKeydown_wraps (n i : Nat) (hi : i < n) :
    galleryKeydown n i "ArrowRight"
      = { defaultPrevented := true, focused := some ((i + 1) % n) } ∧
    galleryKeydown n i "ArrowLeft"
      = { defaultPrevented := true, focused := some ((i + n - 1) % n) } ∧
    (i + 1) % n < n ∧ (i + n - 1) % n < n ∧
    (∀ key : String, key ≠ "ArrowLeft" → key ≠ "ArrowRight" →
      galleryKeydown n i key = { defaultPrevented := false, focused := none }) := by
  have hn : 0 < n := by omega
  refine ⟨?_, ?_, Nat.mod_lt _ hn, Nat.mod_lt _ hn, fun key hl hr => ?_⟩
  · have hne : ("ArrowRight" : String) ≠ "ArrowLeft" := by decide
    by_cases h : i < n - 1
    · have hmod : (i + 1) % n = i + 1 := Nat.mod_eq_of_lt (by omega)
      simp [galleryKeydown, hne, h, hmod]
    · have hin : i + 1 = n := by omega
      simp [galleryKeydown, hne, h, hin]
  · by_cases h : 0 < i
    · have hmod : (i + n - 1) % n = i - 1 := by
        have e : i + n - 1 = (i - 1) + n := by omega
        rw [e, Nat.add_mod_right]
        exact Nat.mod_eq_of_lt (by omega)
      simp [galleryKeydown, h, hmod]
    · have hi0 : i = 0 := by omega
      subst hi0
      have hmod : (0 + n - 1) % n = n - 1 := by
        rw [Nat.zero_add]
        exact Nat.mod_eq_of_lt (by omega)
      simp [galleryKeydown, hmod]
  · simp [galleryKeydown, hl, hr]

/-- C6, worked example: with five images, ArrowRight on the last focuses the
first, ArrowLeft on the first focuses the last, and Tab does nothing. -/
theorem galleryKeydown_wraps_witness :
    galleryKeydown 5 4 "ArrowRight" = { defaultPrevented := true, focused := some 0 } ∧
    galleryKeydown 5 0 "ArrowLeft" = { defaultPrevented := true, focused := some 4 } ∧
    galleryKeydown 5 2 "Tab" = { defaultPrevented := false, focused := none } :=
  ⟨(galleryKeydown_wraps 5 4 (by decide)).1, (galleryKeydown_wraps 5 0 (by decide)).2.1,
    (galleryKeydown_wraps 5 2 (by decide)).2.2.2.2 "Tab" (by decide) (by decide)⟩


/-- While events keep arriving before the armed timer is due, the timer is
replaced each time and `func` does not run. -/
theorem burst_pending (w : Nat) (times : List Nat) (t0 : Nat) (d : Debounced)
    (hw : d.wait = w) (hcalls : d.calls = []) (htimeout : d.timeout = some (t0 + w))
    (hchain : List.Chain (fun a b => a ≤ b ∧ b < a + w) t0 times) :
    (d.burst times).calls = [] ∧
    (d.burst times).timeout = some ((t0 :: times).getLast (List.cons_ne_nil _ _) + w) ∧
    (d.burst times).wait = w := by
  induction times generalizing t0 d with
  | nil => exact ⟨hcalls, by simpa using htimeout, hw⟩
  | cons t1 rest ih =>
    rw [List.chain_cons] at hchain
    obtain ⟨⟨_, hlt⟩, hrest⟩ := hchain
    have hnot : ¬ t0 + w ≤ t1 := by omega
    have hevent : d.event t1 = { d with timeout := some (t1 + w) } := by
      simp [Debounced.event, Debounced.advance, Debounced.invoke, htimeout, hnot, hw]
    have h := ih t1 (d.event t1) (by rw [hevent]; exact hw) (by rw [hevent]; exact hcalls)
      (by rw [hevent]) hrest
    simpa [Debounced.burst, List.getLast_cons_cons] using h

/-- One debounced listener over a burst of closely spaced events: `func` has
not run when the last event has been handled, the timer is then due `wait`
milliseconds after the last event, and `func` runs once, at that time. -/
theorem debounce_burst (w : Nat) (times : List Nat) (hne : times ≠ [])
    (hclose : CloselySpaced w times) :
    ((debounce w).burst times).calls = [] ∧
    ((debounce w).burst times).timeout = some (times.getLast hne + w) ∧
    ((debounce w).burst times).settle.calls = [times.getLast hne + w] := by
  cases times with
  | nil => exact absurd rfl hne
  | cons t rest =>
    have hfirst : (debounce w).event t = { debounce w with timeout := some (t + w) } := by
      simp [Debounced.event, Debounced.advance, Debounced.invoke, debounce]
    have h := burst_pending w rest t ((debounce w).event t) (by rw [hfirst]; rfl)
      (by rw [hfirst]; rfl) (by rw [hfirst]) hclose
    have hburst : (debounce w).burst (t :: rest) = ((debounce w).event t).burst rest := rfl
    rw [hburst]
    refine ⟨h.1, h.2.1, ?_⟩
    simp [Debounced.settle, Debounced.fire, h.1, h.2.1]

/-- C7, as stated, fails: three resize events 100 ms apart make
`setupGalleryDimensions` run twice, once from the listener at the end of the
script and once from the listener of `setupGalleryScrollListener`, both at
450 ms. -/
theorem resize_burst_recomputes_twice :
    geometryRuns (exampleGallery false Transform.unset) [0, 100, 200]
      = [(ResizeListener.windowResize, 450), (ResizeListener.galleryResize, 450)] ∧
    (geometryRuns (exampleGallery false Transform.unset) [0, 100, 200]).length ≠ 1 := by
  constructor <;> decide

/-- C7, amended: with the gallery initialized, over a burst of `N ≥ 1` resize
events each less than 250 ms after the previous one, a debounced listener
does not run its callback before the burst is over and runs it exactly once,
250 ms after the last event; two of the debounced listeners call
`setupGalleryDimensions`, so it runs exactly twice for the burst, both times
250 ms after the last event and not before. -/
theorem resize_burst_recomputes (g : GalleryState) (times : List Nat)
    (hinit : g.isInitialized = true) (hne : times ≠ []) (hclose : CloselySpaced 250 times) :
    ((debounce 250).burst times).calls = [] ∧
    ((debounce 250).burst times).settle.calls = [times.getLast hne + 250] ∧
    geometryRunsDuring g times = [] ∧
    geometryRuns g times
      = [(ResizeListener.windowResize, times.getLast hne + 250),
         (ResizeListener.galleryResize, times.getLast hne + 250)] := by
  have h := debounce_burst 250 times hne hclose
  refine ⟨h.1, h.2.2, ?_, ?_⟩
  · simp [geometryRunsDuring, resizeListeners, ResizeListener.recomputes, hinit, h.1]
  · simp [geometryRuns, resizeListeners, ResizeListener.recomputes, hinit, h.2.2]

/-- C7, amended, worked example: resize events at 0, 100 and 200 ms. -/
theorem resize_burst_recomputes_witness :
    geometryRunsDuring (exampleGallery false Transform.unset) [0, 100, 200] = [] ∧
    geometryRuns (exampleGallery false Transform.unset) [0, 100, 200]
      = [(ResizeListener.windowResize, 450), (ResizeListener.galleryResize, 450)] := by
  have h := resize_burst_recomputes (exampleGallery false Transform.unset) [0, 100, 200] rfl
    (by decide) (by simp [CloselySpaced])
  exact ⟨h.2.2.1, h.2.2.2⟩


/-! ## Theorems: the easing curve -/

/-- C11: for every `t`, `easeInOutQuad(t)` is `2 t^2` when `t < 1/2` and
`1 - 2 (1 - t)^2` otherwise; the second branch of the code,
`-1 + (4 - 2 t) t`, is identically `1 - 2 (1 - t)^2`; and both branches give
`1/2` at `t = 1/2`. -/
theorem easeInOutQuad_piecewise (t : ℚ) :
    easeInOutQuad t = (if t < 1 / 2 then 2 * t ^ 2 else 1 - 2 * (1 - t) ^ 2) ∧
    -1 + (4 - 2 * t) * t = 1 - 2 * (1 - t) ^ 2 ∧
    2 * (1 / 2 : ℚ) ^ 2 = 1 / 2 ∧
    1 - 2 * (1 - (1 / 2 : ℚ)) ^ 2 = 1 / 2 ∧
    easeInOutQuad (1 / 2) = 1 / 2 := by
  have hbranch : -1 + (4 - 2 * t) * t = 1 - 2 * (1 - t) ^ 2 := by ring
  refine ⟨?_, hbranch, by norm_num, by norm_num, by norm_num [easeInOutQuad]⟩
  unfold easeInOutQuad
  split
  · ring
  · exact hbranch

/-- On the unit interval the easing curve is monotone and stays in the unit
interval. -/
theorem easeInOutQuad_mono_unit (a b : ℚ) (ha : 0 ≤ a) (hab : a ≤ b) (hb : b ≤ 1) :
    0 ≤ easeInOutQuad a ∧ easeInOutQuad a ≤ easeInOutQuad b ∧ easeInOutQuad b ≤ 1 := by
  unfold easeInOutQuad
  by_cases h1 : a < 1 / 2 <;> by_cases h2 : b < 1 / 2
  · simp only [h1, h2, if_true]
    refine ⟨by nlinarith, by nlinarith, by nlinarith⟩
  · simp only [h1, h2, if_true, if_false]
    refine ⟨by nlinarith, by nlinarith, by nlinarith⟩
  · exact absurd (lt_of_le_of_lt hab h2) h1
  · simp only [h1, h2, if_false]
    refine ⟨by nlinarith, by nlinarith, by nlinarith⟩


/-- Inside a non-degenerate range the offset after an update is the eased
raw progress times the scroll distance times the sensitivity. -/
theorem offsetAfter_zone (g : GalleryState) (track : TrackElement) (scrollTop : ℚ)
    (hinit : g.isInitialized = true) (htrack : g.trackElement = some track)
    (htotal : 0 < g.totalScrollDistance) (hlt : g.startOffset < g.endOffset)
    (hlo : g.startOffset ≤ scrollTop) (hhi : scrollTop ≤ g.endOffset) :
    offsetAfter g scrollTop =
      some (easeInOutQuad ((scrollTop - g.startOffset) / (g.endOffset - g.startOffset))
        * g.totalScrollDistance * GALLERY_SCROLL_SENSITIVITY) := by
  have hne : g.endOffset - g.startOffset ≠ 0 := by
    intro h; linarith
  have hclamp := clamp_progress_inside g.startOffset g.endOffset scrollTop hlt hlo hhi
  have hguard : ¬ g.totalScrollDistance ≤ 0 := not_le.mpr htotal
  simp [offsetAfter, updateGalleryPosition, hinit, hguard, hlo, hhi, htrack, leftOffset,
    insideTransform, hne, hclamp]

/-- In a degenerate range the update inside the zone writes no number. -/
theorem offsetAfter_degenerate (g : GalleryState) (scrollTop : ℚ)
    (hinit : g.isInitialized = true) (htotal : 0 < g.totalScrollDistance)
    (heq : g.startOffset = g.endOffset)
    (hlo : g.startOffset ≤ scrollTop) (hhi : scrollTop ≤ g.endOffset) :
    offsetAfter g scrollTop = none := by
  have hguard : ¬ g.totalScrollDistance ≤ 0 := not_le.mpr htotal
  have hzero : g.endOffset - g.startOffset = 0 := by rw [heq]; ring
  cases htrack : g.trackElement with
  | none => simp [offsetAfter, updateGalleryPosition, hinit, hguard, hlo, hhi, htrack]
  | some track =>
    simp [offsetAfter, updateGalleryPosition, hinit, hguard, hlo, hhi, htrack, leftOffset,
      insideTransform, hzero]

/-! ## Theorems: binary64 evaluation -/

/-- The value of `round64` at a positive number with binary exponent `e` whose
scaled significand has integer part `m`. -/
theorem round64_eval (x : ℚ) (e m : ℤ) (hpos : 0 < x) (he : -1022 ≤ e)
    (hlo : (2 : ℚ) ^ e ≤ x) (hhi : x < (2 : ℚ) ^ (e + 1))
    (hm : (m : ℚ) ≤ x / (2 : ℚ) ^ (e - 52)) (hm1 : x / (2 : ℚ) ^ (e - 52) < m + 1) :
    round64 x =
      ((if x / (2 : ℚ) ^ (e - 52) - m < 1 / 2 then m
        else if 1 / 2 < x / (2 : ℚ) ^ (e - 52) - m then m + 1
        else if m % 2 = 0 then m else m + 1 : ℤ) : ℚ) * (2 : ℚ) ^ (e - 52) := by
  have hlog : Int.log 2 x = e := by
    have h1 : e ≤ Int.log 2 x :=
      (Int.zpow_le_iff_le_log (by norm_num) hpos).mp (by exact_mod_cast hlo)
    have h2 : Int.log 2 x < e + 1 :=
      (Int.lt_zpow_iff_log_lt (by norm_num) hpos).mp (by exact_mod_cast hhi)
    omega
  have hfloor : ⌊x / (2 : ℚ) ^ (e - 52)⌋ = m := by
    rw [Int.floor_eq_iff]; exact ⟨hm, hm1⟩
  have habs : |x| = x := abs_of_pos hpos
  have hne : x ≠ 0 := ne_of_gt hpos
  have hnn : ¬ x < 0 := not_lt.mpr hpos.le
  unfold round64
  simp only [hne, if_false, habs, hlog, max_eq_left he, hfloor, hnn, one_mul]

theorem round64_zero : round64 0 = 0 := by
  simp [round64]

/-- The second branch of `easeInOutQuad64`, one rounding at a time. -/
theorem easeInOutQuad64_upper (t a b c d : ℚ) (ht : ¬ t < 1 / 2) (h1 : round64 (2 * t) = a)
    (h2 : round64 (4 - a) = b) (h3 : round64 (b * t) = c) (h4 : round64 (-1 + c) = d) :
    easeInOutQuad64 t = d := by
  unfold easeInOutQuad64
  rw [if_neg ht, h1, h2, h3, h4]

/-- The arithmetic of `insideTransform64`, one rounding at a time. -/
theorem insideTransform64_eval (g : GalleryState) (scrollTop start stop total d n q c ez et o : ℚ)
    (hstart : g.startOffset = start) (hstop : g.endOffset = stop)
    (htotal : g.totalScrollDistance = total) (hsens : GALLERY_SCROLL_SENSITIVITY = 1)
    (hd : round64 (stop - start) = d) (hd0 : d ≠ 0)
    (hn : round64 (scrollTop - start) = n) (hq : round64 (n / d) = q)
    (hc : max 0 (min 1 q) = c) (he : easeInOutQuad64 c = ez)
    (ht : round64 (ez * total) = et) (ho : round64 (et * 1) = o) :
    insideTransform64 g scrollTop = Transform.translateLeft o := by
  unfold insideTransform64
  simp only [hstart, hstop, htotal, hsens, hd, hd0, if_false, hn, hq, hc, he, ht, ho]

theorem easeInOutQuad64_zero : easeInOutQuad64 0 = 0 := by
  unfold easeInOutQuad64
  rw [if_pos (by norm_num)]
  simp [round64_zero]

/-- In binary64 the curve is exactly 1 at 1. -/
theorem easeInOutQuad64_one : easeInOutQuad64 1 = 1 := by
  have h1 : round64 (2 * 1) = 2 := by
    rw [round64_eval _ (1) (4503599627370496) (by norm_num) (by norm_num) (by norm_num) (by norm_num)
      (by norm_num) (by norm_num)]
    norm_num
  have h2 : round64 (4 - 2) = 2 := by
    rw [round64_eval _ (1) (4503599627370496) (by norm_num) (by norm_num) (by norm_num) (by norm_num)
      (by norm_num) (by norm_num)]
    norm_num
  have h3 : round64 (2 * 1) = 2 := by
    rw [round64_eval _ (1) (4503599627370496) (by norm_num) (by norm_num) (by norm_num) (by norm_num)
      (by norm_num) (by norm_num)]
    norm_num
  have h4 : round64 (-1 + 2) = 1 := by
    rw [round64_eval _ (0) (4503599627370496) (by norm_num) (by norm_num) (by norm_num) (by norm_num)
      (by norm_num) (by norm_num)]
    norm_num
  exact easeInOutQuad64_upper _ _ _ _ _ (by norm_num) h1 h2 h3 h4

/-- In binary64 the curve is exactly 1 at the last number but one below 1. -/
theorem easeInOutQuad64_near_one_low : easeInOutQuad64 (1 - 1 / 2 ^ 52) = 1 := by
  have h1 : round64 (2 * (1 - 1 / 2 ^ 52)) = (4503599627370495 / 2 ^ 51) := by
    rw [round64_eval _ (0) (9007199254740990) (by norm_num) (by norm_num) (by norm_num) (by norm_num)
      (by norm_num) (by norm_num)]
    norm_num
  have h2 : round64 (4 - (4503599627370495 / 2 ^ 51)) = (4503599627370497 / 2 ^ 51) := by
    rw [round64_eval _ (1) (4503599627370497) (by norm_num) (by norm_num) (by norm_num) (by norm_num)
      (by norm_num) (by norm_num)]
    norm_num
  have h3 : round64 ((4503599627370497 / 2 ^ 51) * (1 - 1 / 2 ^ 52)) = 2 := by
    rw [round64_eval _ (0) (9007199254740991) (by norm_num) (by norm_num) (by norm_num) (by norm_num)
      (by norm_num) (by norm_num)]
    norm_num
  have h4 : round64 (-1 + 2) = 1 := by
    rw [round64_eval _ (0) (4503599627370496) (by norm_num) (by norm_num) (by norm_num) (by norm_num)
      (by norm_num) (by norm_num)]
    norm_num
  exact easeInOutQuad64_upper _ _ _ _ _ (by norm_num) h1 h2 h3 h4

/-- In binary64 the curve falls short of 1 at the last number below 1. -/
theorem easeInOutQuad64_near_one_high : easeInOutQuad64 (1 - 1 / 2 ^ 53) = (4503599627370495 / 2 ^ 52) := by
  have h1 : round64 (2 * (1 - 1 / 2 ^ 53)) = (9007199254740991 / 2 ^ 52) := by
    rw [round64_eval _ (0) (9007199254740991) (by norm_num) (by norm_num) (by norm_num) (by norm_num)
      (by norm_num) (by norm_num)]
    norm_num
  have h2 : round64 (4 - (9007199254740991 / 2 ^ 52)) = 2 := by
    rw [round64_eval _ (1) (4503599627370496) (by norm_num) (by norm_num) (by norm_num) (by norm_num)
      (by norm_num) (by norm_num)]
    norm_num
  have h3 : round64 (2 * (1 - 1 / 2 ^ 53)) = (9007199254740991 / 2 ^ 52) := by
    rw [round64_eval _ (0) (9007199254740991) (by norm_num) (by norm_num) (by norm_num) (by norm_num)
      (by norm_num) (by norm_num)]
    norm_num
  have h4 : round64 (-1 + (9007199254740991 / 2 ^ 52)) = (4503599627370495 / 2 ^ 52) := by
    rw [round64_eval _ (-1) (9007199254740990) (by norm_num) (by norm_num) (by norm_num) (by norm_num)
      (by norm_num) (by norm_num)]
    norm_num
  exact easeInOutQuad64_upper _ _ _ _ _ (by norm_num) h1 h2 h3 h4

/-- The binary64 offset of the example gallery at `scrollTop = 1500 - 2^-18`. -/
theorem insideTransform64_near_end_low :
    insideTransform64 (exampleGallery true Transform.unset) (1500 - 1 / 2 ^ 18)
      = Transform.translateLeft 800 := by
  have hd : round64 (1500 - 500) = 1000 := by
    rw [round64_eval _ (9) (8796093022208000) (by norm_num) (by norm_num) (by norm_num) (by norm_num)
      (by norm_num) (by norm_num)]
    norm_num
  have hn : round64 ((1500 - 1 / 2 ^ 18) - 500) = (262143999 / 2 ^ 18) := by
    rw [round64_eval _ (9) (8796092988653568) (by norm_num) (by norm_num) (by norm_num) (by norm_num)
      (by norm_num) (by norm_num)]
    norm_num
  have hq : round64 ((262143999 / 2 ^ 18) / 1000) = (4503599610190627 / 2 ^ 52) := by
    rw [round64_eval _ (-1) (9007199220381253) (by norm_num) (by norm_num) (by norm_num) (by norm_num)
      (by norm_num) (by norm_num)]
    norm_num
  have hc : max 0 (min 1 ((4503599610190627 / 2 ^ 52) : ℚ)) = (4503599610190627 / 2 ^ 52) := by
    rw [min_eq_right (by norm_num), max_eq_right (by norm_num)]
  have he1 : round64 (2 * (4503599610190627 / 2 ^ 52)) = (4503599610190627 / 2 ^ 51) := by
    rw [round64_eval _ (0) (9007199220381254) (by norm_num) (by norm_num) (by norm_num) (by norm_num)
      (by norm_num) (by norm_num)]
    norm_num
  have he2 : round64 (4 - (4503599610190627 / 2 ^ 51)) = (4503599644550365 / 2 ^ 51) := by
    rw [round64_eval _ (1) (4503599644550365) (by norm_num) (by norm_num) (by norm_num) (by norm_num)
      (by norm_num) (by norm_num)]
    norm_num
  have he3 : round64 ((4503599644550365 / 2 ^ 51) * (4503599610190627 / 2 ^ 52)) = 2 := by
    rw [round64_eval _ (0) (9007199254740991) (by norm_num) (by norm_num) (by norm_num) (by norm_num)
      (by norm_num) (by norm_num)]
    norm_num
  have he4 : round64 (-1 + 2) = 1 := by
    rw [round64_eval _ (0) (4503599627370496) (by norm_num) (by norm_num) (by norm_num) (by norm_num)
      (by norm_num) (by norm_num)]
    norm_num
  have ht : round64 (1 * 800) = 800 := by
    rw [round64_eval _ (9) (7036874417766400) (by norm_num) (by norm_num) (by norm_num) (by norm_num)
      (by norm_num) (by norm_num)]
    norm_num
  have ho : round64 (800 * 1) = 800 := by
    rw [round64_eval _ (9) (7036874417766400) (by norm_num) (by norm_num) (by norm_num) (by norm_num)
      (by norm_num) (by norm_num)]
    norm_num
  have he : easeInOutQuad64 (4503599610190627 / 2 ^ 52) = 1 :=
    easeInOutQuad64_upper _ _ _ _ _ (by norm_num) he1 he2 he3 he4
  exact insideTransform64_eval _ _ 500 1500 800 _ _ _ _ _ _ _ rfl rfl rfl rfl hd (by norm_num)
    hn hq hc he ht ho

/-- The binary64 offset of the example gallery at `scrollTop = 1500 - 2^-19`. -/
theorem insideTransform64_near_end_high :
    insideTransform64 (exampleGallery true Transform.unset) (1500 - 1 / 2 ^ 19)
      = Transform.translateLeft (3518437208883199 / 2 ^ 42) := by
  have hd : round64 (1500 - 500) = 1000 := by
    rw [round64_eval _ (9) (8796093022208000) (by norm_num) (by norm_num) (by norm_num) (by norm_num)
      (by norm_num) (by norm_num)]
    norm_num
  have hn : round64 ((1500 - 1 / 2 ^ 19) - 500) = (524287999 / 2 ^ 19) := by
    rw [round64_eval _ (9) (8796093005430784) (by norm_num) (by norm_num) (by norm_num) (by norm_num)
      (by norm_num) (by norm_num)]
    norm_num
  have hq : round64 ((524287999 / 2 ^ 19) / 1000) = (9007199237561123 / 2 ^ 53) := by
    rw [round64_eval _ (-1) (9007199237561122) (by norm_num) (by norm_num) (by norm_num) (by norm_num)
      (by norm_num) (by norm_num)]
    norm_num
  have hc : max 0 (min 1 ((9007199237561123 / 2 ^ 53) : ℚ)) = (9007199237561123 / 2 ^ 53) := by
    rw [min_eq_right (by norm_num), max_eq_right (by norm_num)]
  have he1 : round64 (2 * (9007199237561123 / 2 ^ 53)) = (9007199237561123 / 2 ^ 52) := by
    rw [round64_eval _ (0) (9007199237561123) (by norm_num) (by norm_num) (by norm_num) (by norm_num)
      (by norm_num) (by norm_num)]
    norm_num
  have he2 : round64 (4 - (9007199237561123 / 2 ^ 52)) = (2251799817980215 / 2 ^ 50) := by
    rw [round64_eval _ (1) (4503599635960430) (by norm_num) (by norm_num) (by norm_num) (by norm_num)
      (by norm_num) (by norm_num)]
    norm_num
  have he3 : round64 ((2251799817980215 / 2 ^ 50) * (9007199237561123 / 2 ^ 53)) = (9007199254740991 / 2 ^ 52) := by
    rw [round64_eval _ (0) (9007199254740990) (by norm_num) (by norm_num) (by norm_num) (by norm_num)
      (by norm_num) (by norm_num)]
    norm_num
  have he4 : round64 (-1 + (9007199254740991 / 2 ^ 52)) = (4503599627370495 / 2 ^ 52) := by
    rw [round64_eval _ (-1) (9007199254740990) (by norm_num) (by norm_num) (by norm_num) (by norm_num)
      (by norm_num) (by norm_num)]
    norm_num
  have ht : round64 ((4503599627370495 / 2 ^ 52) * 800) = (3518437208883199 / 2 ^ 42) := by
    rw [round64_eval _ (9) (7036874417766398) (by norm_num) (by norm_num) (by norm_num) (by norm_num)
      (by norm_num) (by norm_num)]
    norm_num
  have ho : round64 ((3518437208883199 / 2 ^ 42) * 1) = (3518437208883199 / 2 ^ 42) := by
    rw [round64_eval _ (9) (7036874417766398) (by norm_num) (by norm_num) (by norm_num) (by norm_num)
      (by norm_num) (by norm_num)]
    norm_num
  have he : easeInOutQuad64 (9007199237561123 / 2 ^ 53) = (4503599627370495 / 2 ^ 52) :=
    easeInOutQuad64_upper _ _ _ _ _ (by norm_num) he1 he2 he3 he4
  exact insideTransform64_eval _ _ 500 1500 800 _ _ _ _ _ _ _ rfl rfl rfl rfl hd (by norm_num)
    hn hq hc he ht ho

/-- The integer chosen by the rounding is within one half of the scaled value. -/
theorem nearest_within_half (q : ℚ) :
    |(((if q - ⌊q⌋ < 1 / 2 then ⌊q⌋
        else if 1 / 2 < q - ⌊q⌋ then ⌊q⌋ + 1
        else if ⌊q⌋ % 2 = 0 then ⌊q⌋ else ⌊q⌋ + 1 : ℤ) : ℚ)) - q| ≤ 1 / 2 := by
  have h0 : (⌊q⌋ : ℚ) ≤ q := Int.floor_le q
  have h1 : q < ⌊q⌋ + 1 := Int.lt_floor_add_one q
  rw [abs_le]
  split_ifs with ha hb hc
  · constructor <;> linarith
  · push_cast; constructor <;> linarith
  · constructor <;> linarith
  · push_cast; constructor <;> linarith

/-- Rounding error: a number between 0 and `2^k` moves by at most `2^(k-54)`. -/
theorem round64_error (x : ℚ) (k : ℤ) (hk : -1021 ≤ k) (h0 : 0 ≤ x) (hx : x ≤ 2 ^ k) :
    |round64 x - x| ≤ 2 ^ (k - 54) := by
  rcases eq_or_lt_of_le h0 with hzero | hpos
  · subst hzero
    simp [round64]
    positivity
  have hne : x ≠ 0 := ne_of_gt hpos
  have hnn : ¬ x < 0 := not_lt.mpr h0
  have habs : |x| = x := abs_of_pos hpos
  unfold round64
  simp only [hne, if_false, habs, hnn, one_mul]
  set e : ℤ := max (Int.log 2 x) (-1022) with he
  have hulp : (0 : ℚ) < 2 ^ (e - 52) := by positivity
  have hxq : x = x / 2 ^ (e - 52) * 2 ^ (e - 52) := by field_simp
  have hhalf := nearest_within_half (x / 2 ^ (e - 52))
  rcases eq_or_lt_of_le hx with hxk | hxk
  · -- x is the power of two itself: the scaled value is an integer
    have hlog : Int.log 2 x = k := by
      rw [hxk]
      have := Int.log_zpow (R := ℚ) (b := 2) (by norm_num) k
      simpa using this
    have hek : e = k := by rw [he, hlog]; exact max_eq_left (by omega)
    have hq : x / 2 ^ (e - 52) = ((2 ^ 52 : ℤ) : ℚ) := by
      rw [hek, hxk, ← zpow_sub₀ (by norm_num)]
      norm_num
    rw [hq]
    have hfl : ⌊((2 ^ 52 : ℤ) : ℚ)⌋ = 2 ^ 52 := Int.floor_intCast _
    simp only [hfl]
    norm_num
    have : (4503599627370496 : ℚ) * 2 ^ (e - 52) = x := by
      rw [hxq, hq]; norm_num
    rw [this]; simp
    positivity
  · have hlog : Int.log 2 x < k :=
      (Int.lt_zpow_iff_log_lt (by norm_num) hpos).mp (by exact_mod_cast hxk)
    have hek : e ≤ k - 1 := by rw [he]; exact max_le (by omega) (by omega)
    have hulpk : (2 : ℚ) ^ (e - 52) ≤ 2 ^ (k - 53) :=
      zpow_le_zpow_right₀ (by norm_num) (by omega)
    have hsplit : (2 : ℚ) ^ (k - 53) = 2 * 2 ^ (k - 54) := by
      rw [show k - 53 = 1 + (k - 54) by ring, zpow_add₀ (by norm_num)]
      norm_num
    have hqx : x / 2 ^ (e - 52) * 2 ^ (e - 52) = x := by field_simp
    generalize (if x / 2 ^ (e - 52) - ⌊x / 2 ^ (e - 52)⌋ < 1 / 2 then ⌊x / 2 ^ (e - 52)⌋
        else if 1 / 2 < x / 2 ^ (e - 52) - ⌊x / 2 ^ (e - 52)⌋ then ⌊x / 2 ^ (e - 52)⌋ + 1
        else if ⌊x / 2 ^ (e - 52)⌋ % 2 = 0 then ⌊x / 2 ^ (e - 52)⌋
        else ⌊x / 2 ^ (e - 52)⌋ + 1 : ℤ) = n at hhalf ⊢
    have key : (n : ℚ) * 2 ^ (e - 52) - x = ((n : ℚ) - x / 2 ^ (e - 52)) * 2 ^ (e - 52) := by
      rw [sub_mul, hqx]
    rw [key, abs_mul, abs_of_pos hulp]
    calc |(n : ℚ) - x / 2 ^ (e - 52)| * 2 ^ (e - 52)
        ≤ 1 / 2 * 2 ^ (e - 52) := mul_le_mul_of_nonneg_right hhalf hulp.le
      _ ≤ 1 / 2 * 2 ^ (k - 53) := by linarith
      _ = 2 ^ (k - 54) := by rw [hsplit]; ring

/-- Rounding keeps the sign of a non-negative number. -/
theorem round64_nonneg (x : ℚ) (h0 : 0 ≤ x) : 0 ≤ round64 x := by
  rcases eq_or_lt_of_le h0 with hzero | hpos
  · subst hzero
    simp [round64]
  have hne : x ≠ 0 := ne_of_gt hpos
  have hnn : ¬ x < 0 := not_lt.mpr h0
  have habs : |x| = x := abs_of_pos hpos
  unfold round64
  simp only [hne, if_false, habs, hnn, one_mul]
  generalize max (Int.log 2 x) (-1022) = e
  have hulp : (0 : ℚ) < 2 ^ (e - 52) := by positivity
  have hm : 0 ≤ ⌊x / (2 : ℚ) ^ (e - 52)⌋ := Int.floor_nonneg.mpr (div_nonneg h0 hulp.le)
  generalize ⌊x / (2 : ℚ) ^ (e - 52)⌋ = m at hm ⊢
  have hm1 : (0 : ℤ) ≤ m + 1 := by omega
  apply mul_nonneg _ hulp.le
  split_ifs
  · exact_mod_cast hm
  · exact_mod_cast hm1
  · exact_mod_cast hm
  · exact_mod_cast hm1

/-- A number between 0 and 4 moves by at most `2^-52` when rounded. -/
theorem round64_error_four (x : ℚ) (h0 : 0 ≤ x) (hx : x ≤ 4) :
    |round64 x - x| ≤ 1 / 2 ^ 52 := by
  have h := round64_error x 2 (by norm_num) h0 (by norm_num; exact hx)
  have e : (2 : ℚ) ^ ((2 : ℤ) - 54) = 1 / 2 ^ 52 := by norm_num
  rwa [e] at h

/-- On the unit interval the binary64 evaluation of the curve is within
`2^-50` of its exact value. -/
theorem easeInOutQuad64_accuracy (t : ℚ) (h0 : 0 ≤ t) (h1 : t ≤ 1) :
    |easeInOutQuad64 t - easeInOutQuad t| ≤ 1 / 2 ^ 50 := by
  obtain ⟨ε, hε⟩ : ∃ ε : ℚ, ε = 1 / 2 ^ 52 := ⟨_, rfl⟩
  have hεpos : 0 < ε := by rw [hε]; positivity
  have hεsmall : ε ≤ 1 / 1000 := by rw [hε]; norm_num
  have hgoal : (1 : ℚ) / 2 ^ 50 = 4 * ε := by rw [hε]; norm_num
  rw [hgoal]
  unfold easeInOutQuad64 easeInOutQuad
  by_cases ht : t < 1 / 2
  · rw [if_pos ht, if_pos ht]
    have ha := round64_error_four (2 * t) (by linarith) (by linarith)
    rw [← hε, abs_le] at ha
    obtain ⟨ha1, ha2⟩ := ha
    have hat0 : 0 ≤ round64 (2 * t) * t :=
      mul_nonneg (round64_nonneg _ (by linarith)) h0
    have hat4 : round64 (2 * t) * t ≤ 4 := by nlinarith
    have hc := round64_error_four (round64 (2 * t) * t) hat0 hat4
    rw [← hε, abs_le] at hc
    obtain ⟨hc1, hc2⟩ := hc
    rw [abs_le]
    constructor <;> nlinarith
  · rw [if_neg ht, if_neg ht]
    have ht' : 1 / 2 ≤ t := not_lt.mp ht
    have ha := round64_error_four (2 * t) (by linarith) (by linarith)
    rw [← hε, abs_le] at ha
    obtain ⟨ha1, ha2⟩ := ha
    have hb := round64_error_four (4 - round64 (2 * t)) (by linarith) (by linarith)
    rw [← hε, abs_le] at hb
    obtain ⟨hb1, hb2⟩ := hb
    have hbt0 : 0 ≤ round64 (4 - round64 (2 * t)) * t := by
      apply mul_nonneg _ h0
      linarith
    have hbt4 : round64 (4 - round64 (2 * t)) * t ≤ 4 := by nlinarith
    have hc := round64_error_four (round64 (4 - round64 (2 * t)) * t) hbt0 hbt4
    rw [← hε, abs_le] at hc
    obtain ⟨hc1, hc2⟩ := hc
    have hbtlo : 5 / 4 ≤ round64 (4 - round64 (2 * t)) * t := by
      nlinarith [mul_nonneg (sub_nonneg.mpr ht') (sub_nonneg.mpr (by linarith : t ≤ 3 / 2))]
    have hd := round64_error_four (-1 + round64 (round64 (4 - round64 (2 * t)) * t))
      (by linarith) (by linarith)
    rw [← hε, abs_le] at hd
    obtain ⟨hd1, hd2⟩ := hd
    rw [abs_le]
    constructor <;> nlinarith

/-- On the unit interval the binary64 evaluation of the curve is never
negative. -/
theorem easeInOutQuad64_nonneg (t : ℚ) (h0 : 0 ≤ t) (h1 : t ≤ 1) : 0 ≤ easeInOutQuad64 t := by
  unfold easeInOutQuad64
  by_cases ht : t < 1 / 2
  · rw [if_pos ht]
    exact round64_nonneg _ (mul_nonneg (round64_nonneg _ (by linarith)) h0)
  · rw [if_neg ht]
    have ht' : 1 / 2 ≤ t := not_lt.mp ht
    have hε : (1 : ℚ) / 2 ^ 52 ≤ 1 / 1000 := by norm_num
    have ha := round64_error_four (2 * t) (by linarith) (by linarith)
    rw [abs_le] at ha
    obtain ⟨ha1, ha2⟩ := ha
    have hb := round64_error_four (4 - round64 (2 * t)) (by linarith) (by linarith)
    rw [abs_le] at hb
    obtain ⟨hb1, hb2⟩ := hb
    have hbt0 : 0 ≤ round64 (4 - round64 (2 * t)) * t := by
      apply mul_nonneg _ h0
      linarith
    have hbt4 : round64 (4 - round64 (2 * t)) * t ≤ 4 := by nlinarith
    have hc := round64_error_four (round64 (4 - round64 (2 * t)) * t) hbt0 hbt4
    rw [abs_le] at hc
    obtain ⟨hc1, hc2⟩ := hc
    have hbtlo : 5 / 4 ≤ round64 (4 - round64 (2 * t)) * t := by
      nlinarith [mul_nonneg (sub_nonneg.mpr ht') (sub_nonneg.mpr (by linarith : t ≤ 3 / 2))]
    exact round64_nonneg _ (by linarith)

/-- C12, as stated, fails.  On binary64 the curve is not monotone:
`1 - 2^-52 ≤ 1 - 2^-53` are two binary64 numbers of the unit interval, and the
curve is exactly 1 at the first and `1 - 2^-52` at the second.  With the
example geometry (500, 1500, 800) the binary64 offset is 800 at
`scrollTop = 1500 - 2^-18` and `800 - 2^-42` at the later position
`1500 - 2^-19`.  And in a zone with `startOffset = endOffset` the update
writes no number at all. -/
theorem easeInOutQuad64_not_monotone :
    (0 : ℚ) ≤ 1 - 1 / 2 ^ 52 ∧ (1 - 1 / 2 ^ 52 : ℚ) ≤ 1 - 1 / 2 ^ 53 ∧
    (1 - 1 / 2 ^ 53 : ℚ) ≤ 1 ∧
    round64 (1 - 1 / 2 ^ 52) = 1 - 1 / 2 ^ 52 ∧
    round64 (1 - 1 / 2 ^ 53) = 1 - 1 / 2 ^ 53 ∧
    easeInOutQuad64 (1 - 1 / 2 ^ 52) = 1 ∧
    easeInOutQuad64 (1 - 1 / 2 ^ 53) = 1 - 1 / 2 ^ 52 ∧
    easeInOutQuad64 (1 - 1 / 2 ^ 53) < easeInOutQuad64 (1 - 1 / 2 ^ 52) ∧
    (1500 - 1 / 2 ^ 18 : ℚ) ≤ 1500 - 1 / 2 ^ 19 ∧
    insideTransform64 (exampleGallery true Transform.unset) (1500 - 1 / 2 ^ 18)
      = Transform.translateLeft 800 ∧
    insideTransform64 (exampleGallery true Transform.unset) (1500 - 1 / 2 ^ 19)
      = Transform.translateLeft (800 - 1 / 2 ^ 42) ∧
    (setupGalleryDimensions viewportHighGallery 0 900).startOffset ≤ 500 ∧
    500 ≤ (setupGalleryDimensions viewportHighGallery 0 900).endOffset ∧
    offsetAfter (setupGalleryDimensions viewportHighGallery 0 900) 500 = none := by
  have hlow := easeInOutQuad64_near_one_low
  have hhigh : easeInOutQuad64 (1 - 1 / 2 ^ 53) = 1 - 1 / 2 ^ 52 := by
    rw [easeInOutQuad64_near_one_high]; norm_num
  have hr1 : round64 (1 - 1 / 2 ^ 52) = 1 - 1 / 2 ^ 52 := by
    rw [round64_eval _ (-1) (9007199254740990) (by norm_num) (by norm_num) (by norm_num)
      (by norm_num) (by norm_num) (by norm_num)]
    norm_num
  have hr2 : round64 (1 - 1 / 2 ^ 53) = 1 - 1 / 2 ^ 53 := by
    rw [round64_eval _ (-1) (9007199254740991) (by norm_num) (by norm_num) (by norm_num)
      (by norm_num) (by norm_num) (by norm_num)]
    norm_num
  have htotal : (setupGalleryDimensions viewportHighGallery 0 900).totalScrollDistance = 800 := by
    norm_num [setupGalleryDimensions, viewportHighGallery]
  have hstart : (setupGalleryDimensions viewportHighGallery 0 900).startOffset = 500 := by
    norm_num [setupGalleryDimensions, viewportHighGallery, GALLERY_PIN_OFFSET]
  have hend : (setupGalleryDimensions viewportHighGallery 0 900).endOffset = 500 := by
    norm_num [setupGalleryDimensions, viewportHighGallery, GALLERY_PIN_OFFSET]
  refine ⟨by norm_num, by norm_num, by norm_num, hr1, hr2, hlow, hhigh, ?_, by norm_num,
    insideTransform64_near_end_low, ?_, hstart.le, hend.ge, ?_⟩
  · rw [hlow, hhigh]; norm_num
  · rw [insideTransform64_near_end_high]; norm_num
  · exact offsetAfter_degenerate _ 500 rfl (by rw [htotal]; norm_num) (by rw [hstart, hend])
      hstart.le hend.ge

/-- C12, amended: evaluated in exact arithmetic, `easeInOutQuad` maps the unit
interval monotonically into itself, with `easeInOutQuad(0) = 0` and
`easeInOutQuad(1) = 1`.  Its binary64 evaluation returns exactly 0 at 0 and 1
at 1, is never negative on the unit interval and stays within `2^-50` of the
exact value there, so it is monotone up to rounding: for `0 ≤ a ≤ b ≤ 1` its
value at `a` is at most its value at `b` plus `2^-49`, and its value at `b`
is at most `1 + 2^-50`.  Hence, in exact arithmetic, for two scroll positions
`s1 ≤ s2` inside the zone of an initialized gallery with a positive scroll
distance and `startOffset < endOffset`, `updateGalleryPosition` writes
offsets `p1` and `p2` with
`0 ≤ p1 ≤ p2 ≤ totalScrollDistance * GALLERY_SCROLL_SENSITIVITY`. -/
theorem easeInOutQuad_monotone (a b : ℚ) (ha : 0 ≤ a) (hab : a ≤ b) (hb : b ≤ 1)
    (g : GalleryState) (track : TrackElement) (s1 s2 : ℚ)
    (hinit : g.isInitialized = true) (htrack : g.trackElement = some track)
    (htotal : 0 < g.totalScrollDistance) (hlt : g.startOffset < g.endOffset)
    (hlo : g.startOffset ≤ s1) (hmid : s1 ≤ s2) (hhi : s2 ≤ g.endOffset) :
    (0 ≤ easeInOutQuad a ∧ easeInOutQuad a ≤ easeInOutQuad b ∧ easeInOutQuad b ≤ 1 ∧
      easeInOutQuad 0 = 0 ∧ easeInOutQuad 1 = 1) ∧
    (easeInOutQuad64 0 = 0 ∧ easeInOutQuad64 1 = 1 ∧
      |easeInOutQuad64 a - easeInOutQuad a| ≤ 1 / 2 ^ 50 ∧
      |easeInOutQuad64 b - easeInOutQuad b| ≤ 1 / 2 ^ 50 ∧
      0 ≤ easeInOutQuad64 a ∧
      easeInOutQuad64 a ≤ easeInOutQuad64 b + 1 / 2 ^ 49 ∧
      easeInOutQuad64 b ≤ 1 + 1 / 2 ^ 50) ∧
    ∃ p1 p2 : ℚ, offsetAfter g s1 = some p1 ∧ offsetAfter g s2 = some p2 ∧
      0 ≤ p1 ∧ p1 ≤ p2 ∧ p2 ≤ g.totalScrollDistance * GALLERY_SCROLL_SENSITIVITY := by
  obtain ⟨h0, hmono, h1⟩ := easeInOutQuad_mono_unit a b ha hab hb
  have hacc_a := easeInOutQuad64_accuracy a ha (le_trans hab hb)
  have hacc_b := easeInOutQuad64_accuracy b (le_trans ha hab) hb
  have ha' := abs_le.mp hacc_a
  have hb' := abs_le.mp hacc_b
  have hsum : (1 : ℚ) / 2 ^ 49 = 1 / 2 ^ 50 + 1 / 2 ^ 50 := by norm_num
  refine ⟨⟨h0, hmono, h1, easeInOutQuad_zero, easeInOutQuad_one⟩,
    ⟨easeInOutQuad64_zero, easeInOutQuad64_one, hacc_a, hacc_b,
      easeInOutQuad64_nonneg a ha (le_trans hab hb), by rw [hsum]; linarith [ha'.2, hb'.1],
      by linarith [hb'.2]⟩,
    _, _,
    offsetAfter_zone g track s1 hinit htrack htotal hlt hlo (le_trans hmid hhi),
    offsetAfter_zone g track s2 hinit htrack htotal hlt (le_trans hlo hmid) hhi, ?_⟩
  have hpos : 0 < g.endOffset - g.startOffset := by linarith
  have hq1 : 0 ≤ (s1 - g.startOffset) / (g.endOffset - g.startOffset) :=
    div_nonneg (by linarith) hpos.le
  have hq12 : (s1 - g.startOffset) / (g.endOffset - g.startOffset)
      ≤ (s2 - g.startOffset) / (g.endOffset - g.startOffset) :=
    div_le_div_of_nonneg_right (by linarith) hpos.le
  have hq2 : (s2 - g.startOffset) / (g.endOffset - g.startOffset) ≤ 1 := by
    rw [div_le_one hpos]; linarith
  obtain ⟨e0, e12, e1⟩ := easeInOutQuad_mono_unit _ _ hq1 hq12 hq2
  simp only [GALLERY_SCROLL_SENSITIVITY, mul_one]
  refine ⟨mul_nonneg e0 htotal.le, mul_le_mul_of_nonneg_right e12 htotal.le, ?_⟩
  calc easeInOutQuad ((s2 - g.startOffset) / (g.endOffset - g.startOffset))
        * g.totalScrollDistance
      ≤ 1 * g.totalScrollDistance := mul_le_mul_of_nonneg_right e1 htotal.le
    _ = g.totalScrollDistance := one_mul _

/-- C12, amended, worked example: the curve at 1/4 and 3/4, exactly and in
binary64, and the offsets of the example gallery at `scrollTop` 750 and
1250. -/
theorem easeInOutQuad_monotone_witness :
    easeInOutQuad (1 / 4) ≤ easeInOutQuad (3 / 4) ∧
    easeInOutQuad64 (1 / 4) ≤ easeInOutQuad64 (3 / 4) + 1 / 2 ^ 49 ∧
    ∃ p1 p2 : ℚ,
      offsetAfter (exampleGallery true (Transform.translateLeft 0)) 750 = some p1 ∧
      offsetAfter (exampleGallery true (Transform.translateLeft 0)) 1250 = some p2 ∧
      0 ≤ p1 ∧ p1 ≤ p2 ∧ p2 ≤ 800 * GALLERY_SCROLL_SENSITIVITY := by
  have h := easeInOutQuad_monotone (1 / 4) (3 / 4) (by norm_num) (by norm_num) (by norm_num)
    (exampleGallery true (Transform.translateLeft 0)) _ 750 1250 rfl rfl
    (by norm_num [exampleGallery]) (by norm_num [exampleGallery])
    (by norm_num [exampleGallery]) (by norm_num) (by norm_num [exampleGallery])
  exact ⟨h.1.2.1, h.2.1.2.2.2.2.2.1, h.2.2⟩

/-! ## Theorems: stopping the animator -/

theorem leakThenHide_state :
    run (loadedPage false false) leakThenHide
      = step (step (runDue { run (loadedPage false false) toggleWhileHidden with now := 1800 })
          (Event.visibilityChange false)) (Event.visibilityChange true) := by
  rw [leakThenHide, run_cons, run_cons, run_cons, run_cons, run_cons, run_cons, run_nil,
    step_elapse, show (1800 : Nat) = 1799 + 1 from rfl, elapse_jump_of_all 1799]
  all_goals rfl

theorem leakThenHideThenWait_state :
    run (loadedPage false false) leakThenHideThenWait
      = elapse 1800 (run (loadedPage false false) leakThenHide) := by
  rw [leakThenHideThenWait, leakThenHide, run_cons, run_cons, run_cons, run_cons, run_cons,
    run_cons, run_cons, run_cons, run_cons, run_cons, run_cons, run_cons, run_cons, run_nil,
    run_nil, step_elapse, step_elapse]

/-- C13, as stated, fails: after the trace `leakThenHideThenWait` the handle
is absent, an interval armed earlier is still ticking and has just started a
crossfade, so `isTransitioning` is true; `stopMultilingualAnimation` then
skips its body and `isTransitioning` stays true. -/
theorem stop_keeps_flag_without_handle :
    (run (loadedPage false false) leakThenHideThenWait).animationInterval = none ∧
    (run (loadedPage false false) leakThenHideThenWait).isTransitioning = true ∧
    (stopMultilingualAnimation
      (run (loadedPage false false) leakThenHideThenWait)).isTransitioning = true ∧
    stopMultilingualAnimation (run (loadedPage false false) leakThenHideThenWait)
      = run (loadedPage false false) leakThenHideThenWait := by
  have hstate : run (loadedPage false false) leakThenHideThenWait
      = runDue { runDue { runDue { run (loadedPage false false) leakThenHide with now := 1890 }
          with now := 2070 } with now := 3600 } := by
    rw [leakThenHideThenWait_state,
      show (1800 : Nat) = (89 + 1) + ((179 + 1) + (1529 + 1)) from rfl, elapse_add, elapse_add,
      leakThenHide_state, elapse_jump_of_all 89, elapse_jump_of_all 179,
      elapse_jump_of_all 1529]
    all_goals rfl
  rw [hstate, leakThenHide_state]
  exact ⟨rfl, rfl, rfl, rfl⟩

/-- C13, amended: when the handle is present (and not 0),
`stopMultilingualAnimation` leaves the handle absent, `isTransitioning` false
and no timer with that handle armed; when the handle is absent it changes
nothing, so `isTransitioning` keeps its value; and in every state calling it
twice in a row gives the same state as calling it once. -/
theorem stopMultilingualAnimation_idempotent (s : Page) :
    (∀ id : Nat, s.animationInterval = some id → id ≠ 0 →
      (stopMultilingualAnimation s).animationInterval = none ∧
      (stopMultilingualAnimation s).isTransitioning = false ∧
      (∀ t ∈ (stopMultilingualAnimation s).timers, t.id ≠ id)) ∧
    (s.animationInterval = none → stopMultilingualAnimation s = s) ∧
    stopMultilingualAnimation (stopMultilingualAnimation s) = stopMultilingualAnimation s := by
  refine ⟨fun id hid hne => ?_, fun hnone => ?_, ?_⟩
  · refine ⟨?_, ?_, ?_⟩
    · simp [stopMultilingualAnimation, hid, hne, clearInterval]
    · simp [stopMultilingualAnimation, hid, hne, clearInterval]
    · intro t ht
      simp [stopMultilingualAnimation, hid, hne, clearInterval] at ht
      exact ht.2
  · simp [stopMultilingualAnimation, hnone]
  · cases hid : s.animationInterval with
    | none => simp [stopMultilingualAnimation, hid]
    | some id =>
      by_cases hne : id = 0
      · simp [stopMultilingualAnimation, hid, hne]
      · simp [stopMultilingualAnimation, hid, hne, clearInterval]

/-! ## Theorems: degenerate scroll range -/

/-- C14, failing input: a gallery section exactly as tall as the viewport
(900 px), with a 2000 px track in a 1200 px container.  The dimensions
computed by `setupGalleryDimensions` are `totalScrollDistance = 800` and
`startOffset = endOffset = 500`; at `scrollTop = 500`, which is inside the
zone, the divisor `endOffset - startOffset` is zero, the progress is zero
divided by zero, and the transform written is not a number. -/
theorem viewportHighGallery_divides_by_zero :
    (setupGalleryDimensions viewportHighGallery 0 900).isInitialized = true ∧
    (setupGalleryDimensions viewportHighGallery 0 900).totalScrollDistance = 800 ∧
    (setupGalleryDimensions viewportHighGallery 0 900).startOffset = 500 ∧
    (setupGalleryDimensions viewportHighGallery 0 900).endOffset = 500 ∧
    (setupGalleryDimensions viewportHighGallery 0 900).endOffset
      - (setupGalleryDimensions viewportHighGallery 0 900).startOffset = 0 ∧
    activeAfter (setupGalleryDimensions viewportHighGallery 0 900) 500 = some true ∧
    transformAfter (setupGalleryDimensions viewportHighGallery 0 900) 500
      = some Transform.notANumber ∧
    offsetAfter (setupGalleryDimensions viewportHighGallery 0 900) 500 = none := by
  have htotal : (setupGalleryDimensions viewportHighGallery 0 900).totalScrollDistance = 800 := by
    norm_num [setupGalleryDimensions, viewportHighGallery]
  have hstart : (setupGalleryDimensions viewportHighGallery 0 900).startOffset = 500 := by
    norm_num [setupGalleryDimensions, viewportHighGallery, GALLERY_PIN_OFFSET]
  have hend : (setupGalleryDimensions viewportHighGallery 0 900).endOffset = 500 := by
    norm_num [setupGalleryDimensions, viewportHighGallery, GALLERY_PIN_OFFSET]
  have hinit : (setupGalleryDimensions viewportHighGallery 0 900).isInitialized = true := rfl
  have htrack : (setupGalleryDimensions viewportHighGallery 0 900).trackElement
      = some { scrollWidth := 2000, transform := Transform.unset, willChange := "" } := rfl
  refine ⟨hinit, htotal, hstart, hend, by rw [hstart, hend]; norm_num, ?_, ?_, ?_⟩
  · norm_num [activeAfter, updateGalleryPosition, hinit, htotal, hstart, hend, htrack]
  · norm_num [transformAfter, updateGalleryPosition, hinit, htotal, hstart, hend, htrack,
      insideTransform]
  · norm_num [offsetAfter, updateGalleryPosition, hinit, htotal, hstart, hend, htrack,
      insideTransform, leftOffset]

end Enigma
